import Mathlib

/-!
Verification of the MSI tank-battle simulation engine.

This file is a shallow embedding, in Lean 4, of the engine code in
`02_FRAKCJA_SILNIKA/backend/engine/physics.py`,
`02_FRAKCJA_SILNIKA/backend/engine/visibility.py` and the scoring fragment
of `02_FRAKCJA_SILNIKA/backend/engine/game_loop.py`, together with the data
model of `01_DOKUMENTACJA/final_api.py`.  Python floats are embedded as real
numbers, Python ints as integers, dictionaries as association lists, and the
in-place mutation of tank objects as explicit state passing (tanks are
identified by their id, and writing a tank back into the world list replaces
the entry with the same id).
-/

namespace MSI

open Real

/-- `Position` from `final_api.py`: an (x, y) pair of floats. -/
structure Position where
  x : ℝ
  y : ℝ

/-- `AmmoType` enum from `final_api.py`. -/
inductive AmmoType where
  | heavy
  | light
  | longDistance
deriving DecidableEq

/-- The `Value` entry of the `AmmoType` enum dictionaries
(`HEAVY = -40`, `LIGHT = -20`, `LONG_DISTANCE = -25`). -/
def AmmoType.value : AmmoType → ℤ
  | .heavy => -40
  | .light => -20
  | .longDistance => -25

/-- The `Range` entry of the `AmmoType` enum dictionaries (5, 10, 20). -/
def AmmoType.range : AmmoType → ℝ
  | .heavy => 5
  | .light => 10
  | .longDistance => 20

/-- The `ReloadTime` entry of the `AmmoType` enum dictionaries (2, 1, 2). -/
def AmmoType.reloadTime : AmmoType → ℝ
  | .heavy => 2
  | .light => 1
  | .longDistance => 2

/-- `ObstacleType` enum from `final_api.py`. -/
inductive ObstacleType where
  | wall
  | tree
  | antiTankSpike
deriving DecidableEq

/-- The `destructible` entry of the `ObstacleType` enum dictionaries. -/
def ObstacleType.isDestructible : ObstacleType → Bool
  | .wall => false
  | .tree => true
  | .antiTankSpike => false

/-- The `see_through` entry of the `ObstacleType` enum dictionaries. -/
def ObstacleType.isSeeThrough : ObstacleType → Bool
  | .wall => false
  | .tree => false
  | .antiTankSpike => true

/-- `Obstacle` from `final_api.py` (id, position, size, `is_alive`, type tag).
Sizes are `[width, height]` integer lists in the source; we embed them as
pairs. -/
structure Obstacle where
  id : String
  position : Position
  size : ℤ × ℤ
  is_alive : Bool
  obstacle_type : ObstacleType

/-- `Terrain` from `final_api.py`: a patch with a movement-speed modifier and
a flat per-tick damage (`Grass`, `Road`, `Swamp`, `PotholeRoad`, `Water` are
instances differing only in these two constants). -/
structure Terrain where
  id : String
  position : Position
  size : ℤ × ℤ
  movement_speed_modifier : ℝ
  deal_damage : ℤ

/-- `PowerUpType` enum from `final_api.py`. -/
inductive PowerUpType where
  | medkit
  | shield
  | overcharge
  | ammoHeavy
  | ammoLight
  | ammoLongDistance
deriving DecidableEq

/-- The `Value` entry of the `PowerUpType` enum dictionaries
(Medkit 50, Shield 20, Overcharge 2, ammo refills 2/5/2). -/
def PowerUpType.value : PowerUpType → ℤ
  | .medkit => 50
  | .shield => 20
  | .overcharge => 2
  | .ammoHeavy => 2
  | .ammoLight => 5
  | .ammoLongDistance => 2

/-- The `AmmoType` entry of the ammo-refill `PowerUpType` dictionaries. -/
def PowerUpType.ammoTypeOf : PowerUpType → Option AmmoType
  | .ammoHeavy => some .heavy
  | .ammoLight => some .light
  | .ammoLongDistance => some .longDistance
  | _ => none

/-- `PowerUpData` from `final_api.py`. -/
structure PowerUpData where
  id : String
  position : Position
  powerup_type : PowerUpType
  size : ℤ × ℤ

/-- The `value` property of `PowerUpData`. -/
def PowerUpData.value (p : PowerUpData) : ℤ :=
  p.powerup_type.value

/-- The canonical tank record: the fields of `final_api.Tank` and
`backend/tank/base_tank.Tank` that the engine reads or writes.  The ammo
inventory `Dict[AmmoType, AmmoSlot]` is embedded as the count function
`ammo : AmmoType → ℤ`, and `_max_ammo` as `max_ammo`. -/
structure Tank where
  id : String
  team : ℤ
  tank_type : String
  hp : ℤ
  shield : ℤ
  max_hp : ℤ
  max_shield : ℤ
  position : Position
  heading : ℝ
  barrel_angle : ℝ
  top_speed : ℝ
  heading_spin_rate : ℝ
  barrel_spin_rate : ℝ
  vision_range : ℝ
  vision_angle : ℝ
  is_overcharged : Bool
  ammo_loaded : Option AmmoType
  ammo : AmmoType → ℤ
  max_ammo : AmmoType → ℤ
  size : ℤ × ℤ

/-- `ActionCommand` as consumed by `physics.py` (fields
`heading_rotation_angle`, `barrel_rotation_angle`, `move_speed`,
`should_fire`; `ammo_to_load` is never read by the physics code). -/
structure ActionCommand where
  barrel_rotation_angle : ℝ
  heading_rotation_angle : ℝ
  move_speed : ℝ
  should_fire : Bool

/-- `MapInfo` fields used by `process_physics_tick`. -/
structure MapInfo where
  obstacle_list : List Obstacle
  powerup_list : List PowerUpData
  terrain_list : List Terrain
  size : ℤ × ℤ

/-! ## Geometry utilities (`physics.py` lines 47-89) -/

/-- First `while` loop of `normalize_angle`:
`while angle > 180: angle -= 360`. -/
noncomputable def normalize_loop_down (angle : ℝ) : ℝ :=
  if angle > 180 then normalize_loop_down (angle - 360) else angle
termination_by (⌈(angle - 180) / 360⌉).toNat
decreasing_by
  have h1 : (0 : ℝ) < (angle - 180) / 360 := by
    apply div_pos <;> linarith
  have h2 : (1 : ℤ) ≤ ⌈(angle - 180) / 360⌉ := by
    exact_mod_cast Int.ceil_pos.mpr h1
  have h3 : (angle - 360 - 180) / 360 = (angle - 180) / 360 - 1 := by ring
  have h4 : ⌈(angle - 360 - 180) / 360⌉ = ⌈(angle - 180) / 360⌉ - 1 := by
    rw [h3]
    exact_mod_cast Int.ceil_sub_int ((angle - 180) / 360) 1
  omega

/-- Second `while` loop of `normalize_angle`:
`while angle < -180: angle += 360`. -/
noncomputable def normalize_loop_up (angle : ℝ) : ℝ :=
  if angle < -180 then normalize_loop_up (angle + 360) else angle
termination_by (⌈(-180 - angle) / 360⌉).toNat
decreasing_by
  have h1 : (0 : ℝ) < (-180 - angle) / 360 := by
    apply div_pos <;> linarith
  have h2 : (1 : ℤ) ≤ ⌈(-180 - angle) / 360⌉ := by
    exact_mod_cast Int.ceil_pos.mpr h1
  have h3 : (-180 - (angle + 360)) / 360 = (-180 - angle) / 360 - 1 := by ring
  have h4 : ⌈(-180 - (angle + 360)) / 360⌉ = ⌈(-180 - angle) / 360⌉ - 1 := by
    rw [h3]
    exact_mod_cast Int.ceil_sub_int ((-180 - angle) / 360) 1
  omega

/-- `normalize_angle` from `physics.py` lines 47-53: runs the two `while`
loops in sequence. -/
noncomputable def normalize_angle (angle : ℝ) : ℝ :=
  normalize_loop_up (normalize_loop_down angle)

/-- `calculate_distance` from `physics.py` lines 56-60. -/
noncomputable def calculate_distance (pos1 pos2 : Position) : ℝ :=
  Real.sqrt ((pos2.x - pos1.x) * (pos2.x - pos1.x) +
    (pos2.y - pos1.y) * (pos2.y - pos1.y))

/-- `rectangles_overlap` from `physics.py` lines 63-88: AABB overlap of two
center-positioned rectangles; touching edges do not overlap. -/
def rectangles_overlap (pos1 : Position) (size1 : ℤ × ℤ)
    (pos2 : Position) (size2 : ℤ × ℤ) : Prop :=
  ¬ (pos1.x + (size1.1 : ℝ) / 2 ≤ pos2.x - (size2.1 : ℝ) / 2 ∨
     pos1.x - (size1.1 : ℝ) / 2 ≥ pos2.x + (size2.1 : ℝ) / 2 ∨
     pos1.y + (size1.2 : ℝ) / 2 ≤ pos2.y - (size2.2 : ℝ) / 2 ∨
     pos1.y - (size1.2 : ℝ) / 2 ≥ pos2.y + (size2.2 : ℝ) / 2)

noncomputable instance (pos1 : Position) (size1 : ℤ × ℤ)
    (pos2 : Position) (size2 : ℤ × ℤ) :
    Decidable (rectangles_overlap pos1 size1 pos2 size2) := by
  unfold rectangles_overlap; infer_instance

/-! ## Damage (`physics.py` lines 468-490) -/

/-- `apply_damage` from `physics.py` lines 468-490: subtract from shield
first (`shield_absorb = min(shield, damage)`), carry the remainder to HP.
Returns the updated tank and the `hp <= 0` destruction flag. -/
def apply_damage (tank : Tank) (damage : ℤ) : Tank × Bool :=
  let remaining_damage := damage
  let shield_absorb := min tank.shield remaining_damage
  let tank1 :=
    if tank.shield > 0 then
      { tank with shield := tank.shield - shield_absorb }
    else tank
  let remaining1 :=
    if tank.shield > 0 then remaining_damage - shield_absorb
    else remaining_damage
  let tank2 := { tank1 with hp := tank1.hp - remaining1 }
  (tank2, decide (tank2.hp ≤ 0))

/-! ## Power-ups (`physics.py` lines 495-547) -/

/-- `check_powerup_pickup` from `physics.py` lines 495-512: first power-up
whose AABB overlaps the tank footprint. -/
noncomputable def check_powerup_pickup (tank : Tank) :
    List PowerUpData → Option PowerUpData
  | [] => none
  | p :: rest =>
    if rectangles_overlap tank.position tank.size p.position p.size then
      some p
    else check_powerup_pickup tank rest

/-- `apply_powerup` from `physics.py` lines 515-547.  The three ammo-refill
branches follow the source's shared branch: it selects the ammo type from the
power-up, reads `current` and `max_ammo`, and stores
`min(current + powerup.value, max_ammo)` for that ammo type. -/
def apply_powerup (tank : Tank) (powerup : PowerUpData) : Tank :=
  match powerup.powerup_type with
  | .medkit => { tank with hp := min (tank.hp + powerup.value) tank.max_hp }
  | .shield =>
    { tank with shield := min (tank.shield + powerup.value) tank.max_shield }
  | .overcharge => { tank with is_overcharged := true }
  | ptype =>
    match ptype.ammoTypeOf with
    | some ammo_type =>
      let current := tank.ammo ammo_type
      let max_ammo := tank.max_ammo ammo_type
      { tank with ammo := fun a =>
          if a = ammo_type then min (current + powerup.value) max_ammo
          else tank.ammo a }
    | none => tank

/-! ## Movement (`physics.py` lines 93-182) -/

/-- `math.radians`. -/
noncomputable def radians (deg : ℝ) : ℝ := deg * Real.pi / 180

/-- `math.degrees`. -/
noncomputable def degrees (rad : ℝ) : ℝ := rad * 180 / Real.pi

/-- `get_terrain_at_position` from `physics.py` lines 93-101: the first
terrain whose bounding box overlaps a `[1, 1]` box at the position. -/
noncomputable def get_terrain_at_position (position : Position) :
    List Terrain → Option Terrain
  | [] => none
  | terrain :: rest =>
    if rectangles_overlap position (1, 1) terrain.position terrain.size then
      some terrain
    else get_terrain_at_position position rest

/-- `rotate_heading` from `physics.py` lines 104-124: clamp the rotation to
`heading_spin_rate * delta_time` and normalize the result. -/
noncomputable def rotate_heading (tank : Tank) (target_heading : ℝ)
    (delta_time : ℝ) : Tank :=
  let max_rotation := tank.heading_spin_rate * delta_time
  let angle_diff := normalize_angle (target_heading - tank.heading)
  let heading1 :=
    if |angle_diff| ≤ max_rotation then target_heading
    else tank.heading + (if angle_diff > 0 then max_rotation else -max_rotation)
  { tank with heading := normalize_angle heading1 }

/-- `rotate_barrel` from `physics.py` lines 127-145. -/
noncomputable def rotate_barrel (tank : Tank) (target_barrel_angle : ℝ)
    (delta_time : ℝ) : Tank :=
  let max_rotation := tank.barrel_spin_rate * delta_time
  let angle_diff := normalize_angle (target_barrel_angle - tank.barrel_angle)
  let barrel1 :=
    if |angle_diff| ≤ max_rotation then target_barrel_angle
    else tank.barrel_angle +
      (if angle_diff > 0 then max_rotation else -max_rotation)
  { tank with barrel_angle := normalize_angle barrel1 }

/-- `move_tank` from `physics.py` lines 148-182: clamp the speed to
`[-top_speed, top_speed]`, multiply by the current terrain's modifier,
integrate along the heading, and return the new position together with the
terrain's `deal_damage`. -/
noncomputable def move_tank (tank : Tank) (desired_speed : ℝ)
    (terrains : List Terrain) (delta_time : ℝ) : Position × ℤ :=
  let speed := max (-tank.top_speed) (min desired_speed tank.top_speed)
  let current_terrain := get_terrain_at_position tank.position terrains
  let terrain_modifier :=
    match current_terrain with
    | some t => t.movement_speed_modifier
    | none => 1
  let terrain_damage :=
    match current_terrain with
    | some t => t.deal_damage
    | none => 0
  let effective_speed := speed * terrain_modifier
  let heading_rad := radians tank.heading
  (Position.mk
    (tank.position.x + Real.cos heading_rad * effective_speed * delta_time)
    (tank.position.y + Real.sin heading_rad * effective_speed * delta_time),
   terrain_damage)

/-! ## Collisions (`physics.py` lines 185-338) -/

/-- `CollisionType` enum from `physics.py` lines 17-25. -/
inductive CollisionType where
  | none
  | tankTankMoving
  | tankTankStatic
  | tankWall
  | tankTree
  | tankSpike
  | tankBoundary
deriving DecidableEq

/-- `CollisionResult` dataclass from `physics.py` lines 28-35. -/
structure CollisionResult where
  has_collision : Bool
  collision_type : CollisionType
  damage_to_tank1 : ℤ
  damage_to_tank2 : ℤ
  obstacle_destroyed : Option String

/-- `check_tank_boundary_collision` from `physics.py` lines 187-194. -/
def check_tank_boundary_collision (tank : Tank) (map_size : ℤ × ℤ) : Prop :=
  tank.position.x - (tank.size.1 : ℝ) / 2 < 0 ∨
  tank.position.x + (tank.size.1 : ℝ) / 2 > (map_size.1 : ℝ) ∨
  tank.position.y - (tank.size.2 : ℝ) / 2 < 0 ∨
  tank.position.y + (tank.size.2 : ℝ) / 2 > (map_size.2 : ℝ)

noncomputable instance (tank : Tank) (map_size : ℤ × ℤ) :
    Decidable (check_tank_boundary_collision tank map_size) := by
  unfold check_tank_boundary_collision; infer_instance

/-- `check_tank_obstacle_collision` from `physics.py` lines 197-214: the
first alive obstacle whose AABB overlaps the tank (the source returns the
pair `(found, obstacle)`; we return the optional obstacle). -/
noncomputable def check_tank_obstacle_collision (tank : Tank) :
    List Obstacle → Option Obstacle
  | [] => none
  | obstacle :: rest =>
    if obstacle.is_alive ∧
        rectangles_overlap tank.position tank.size
          obstacle.position obstacle.size then
      some obstacle
    else check_tank_obstacle_collision tank rest

/-- `check_tank_tank_collision` from `physics.py` lines 217-225: false for
the same id, otherwise AABB overlap. -/
def check_tank_tank_collision (tank1 tank2 : Tank) : Prop :=
  tank1.id ≠ tank2.id ∧
  rectangles_overlap tank1.position tank1.size tank2.position tank2.size

noncomputable instance (tank1 tank2 : Tank) :
    Decidable (check_tank_tank_collision tank1 tank2) := by
  unfold check_tank_tank_collision; infer_instance

/-- `resolve_collision` from `physics.py` lines 228-280.  The source mutates
`tank.position = previous_position` and, in the both-moving case, also sets
`other_tank.position = previous_position` — the same local variable, i.e.
the FIRST tank's pre-move position.  We return the collision result, the
updated examined tank, and the (optionally) updated other tank. -/
def resolve_collision (tank : Tank) (previous_position : Position)
    (collision_type : CollisionType) (other_tank : Option Tank)
    (obstacle : Option Obstacle) :
    CollisionResult × Tank × Option Tank :=
  let tank1 := { tank with position := previous_position }
  match collision_type with
  | .tankTankMoving =>
    (CollisionResult.mk true collision_type 25 25 none, tank1,
     other_tank.map fun o => { o with position := previous_position })
  | .tankTankStatic =>
    (CollisionResult.mk true collision_type 10 25 none, tank1, other_tank)
  | .tankWall =>
    (CollisionResult.mk true collision_type 25 0 none, tank1, other_tank)
  | .tankTree =>
    (CollisionResult.mk true collision_type 10 0 (obstacle.map Obstacle.id),
     tank1, other_tank)
  | .tankSpike =>
    (CollisionResult.mk true collision_type 0 0 none, tank1, other_tank)
  | .tankBoundary =>
    (CollisionResult.mk true collision_type 25 0 none, tank1, other_tank)
  | .none =>
    (CollisionResult.mk true collision_type 0 0 none, tank1, other_tank)

/-- The `for other_tank in all_tanks` loop of `check_all_collisions`
(`physics.py` lines 310-320): the first other tank in list order that
collides with the examined tank. -/
noncomputable def find_tank_collision (tank : Tank) :
    List Tank → Option Tank
  | [] => none
  | other :: rest =>
    if check_tank_tank_collision tank other then some other
    else find_tank_collision tank rest

/-- `check_all_collisions` from `physics.py` lines 283-338: boundary first,
then tank-vs-tank (both-moving vs static by membership in `moving_tanks`),
then obstacles (collision type by obstacle type tag); the first hit wins. -/
noncomputable def check_all_collisions (tank : Tank)
    (previous_position : Position) (all_tanks : List Tank)
    (obstacles : List Obstacle) (map_size : ℤ × ℤ)
    (moving_tanks : List String) :
    CollisionResult × Tank × Option Tank :=
  if check_tank_boundary_collision tank map_size then
    resolve_collision tank previous_position .tankBoundary none none
  else
    match find_tank_collision tank all_tanks with
    | some other_tank =>
      let collision_type :=
        if tank.id ∈ moving_tanks ∧ other_tank.id ∈ moving_tanks then
          CollisionType.tankTankMoving
        else CollisionType.tankTankStatic
      resolve_collision tank previous_position collision_type
        (some other_tank) none
    | none =>
      match check_tank_obstacle_collision tank obstacles with
      | some obstacle =>
        let collision_type :=
          match obstacle.obstacle_type with
          | .wall => CollisionType.tankWall
          | .tree => CollisionType.tankTree
          | .antiTankSpike => CollisionType.tankSpike
        resolve_collision tank previous_position collision_type
          none (some obstacle)
      | none =>
        (CollisionResult.mk false .none 0 0 none, tank, none)

/-! ## Firing (`physics.py` lines 341-465) -/

open scoped Classical

/-- `ProjectileHit` dataclass from `physics.py` lines 38-44. -/
structure ProjectileHit where
  hit_tank_id : Option String
  hit_obstacle_id : Option String
  damage_dealt : ℤ
  hit_position : Option Position

/-- `dict.get(key, default)` on a `{tank_id: time}` dictionary, embedded as
an association list (insertion pushes the new binding in front). -/
def dict_get (d : List (String × ℝ)) (key : String) (default : ℝ) : ℝ :=
  (d.lookup key).getD default

/-- `can_fire` from `physics.py` lines 343-364: an ammo type is loaded, its
count is positive, and `current_time - last_shot >= reload_time`, where the
last-shot time defaults to `-999`. -/
def can_fire (tank : Tank) (last_shot_time : List (String × ℝ))
    (current_time : ℝ) : Prop :=
  match tank.ammo_loaded with
  | none => False
  | some a =>
    ¬ (tank.ammo a ≤ 0) ∧
    current_time - dict_get last_shot_time tank.id (-999) ≥ a.reloadTime

/-- `math.atan2`. -/
noncomputable def atan2 (y x : ℝ) : ℝ :=
  if x > 0 then Real.arctan (y / x)
  else if x < 0 ∧ y ≥ 0 then Real.arctan (y / x) + Real.pi
  else if x < 0 then Real.arctan (y / x) - Real.pi
  else if y > 0 then Real.pi / 2
  else if y < 0 then -(Real.pi / 2)
  else 0

/-- The comparison `distance < closest_hit_distance` where
`closest_hit_distance` starts as `float('inf')`; the sentinel is embedded as
`none`. -/
def lt_closest (d : ℝ) : Option ℝ → Prop
  | none => True
  | some c => d < c

/-- The tank loop of `fire_projectile` (`physics.py` lines 411-436): keep
the strictly nearest other tank within range whose bearing differs from the
shot direction by at most 5 degrees.  State: current closest distance and
current hit. -/
noncomputable def scan_tanks (shooter : Tank) (shoot_direction : ℝ)
    (ammo_range : ℝ) (base_damage : ℤ) :
    List Tank → Option ℝ → Option ProjectileHit →
    Option ℝ × Option ProjectileHit
  | [], closest, hit => (closest, hit)
  | target :: rest, closest, hit =>
    if target.id = shooter.id then
      scan_tanks shooter shoot_direction ammo_range base_damage rest
        closest hit
    else
      let distance := calculate_distance shooter.position target.position
      if distance > ammo_range then
        scan_tanks shooter shoot_direction ammo_range base_damage rest
          closest hit
      else
        let angle_to_target := degrees (atan2
          (target.position.y - shooter.position.y)
          (target.position.x - shooter.position.x))
        let angle_diff := |normalize_angle (angle_to_target - shoot_direction)|
        if angle_diff ≤ 5 ∧ lt_closest distance closest then
          scan_tanks shooter shoot_direction ammo_range base_damage rest
            (some distance)
            (some (ProjectileHit.mk (some target.id) none base_damage
              (some target.position)))
        else
          scan_tanks shooter shoot_direction ammo_range base_damage rest
            closest hit

/-- The obstacle loop of `fire_projectile` (`physics.py` lines 439-463): the
first alive obstacle in list order within range, within the 5-degree cone,
and strictly nearer than the tank chosen by the tank loop, pre-empts the
shot (destructible obstacle: obstacle hit; indestructible: absorbed hit with
no ids); otherwise the tank hit stands. -/
noncomputable def scan_obstacles (shooter : Tank) (shoot_direction : ℝ)
    (ammo_range : ℝ) (closest : Option ℝ) (hit_result : Option ProjectileHit) :
    List Obstacle → Option ProjectileHit
  | [] => hit_result
  | obstacle :: rest =>
    if ¬ obstacle.is_alive then
      scan_obstacles shooter shoot_direction ammo_range closest hit_result rest
    else
      let distance := calculate_distance shooter.position obstacle.position
      if distance > ammo_range then
        scan_obstacles shooter shoot_direction ammo_range closest
          hit_result rest
      else
        let angle_to_obstacle := degrees (atan2
          (obstacle.position.y - shooter.position.y)
          (obstacle.position.x - shooter.position.x))
        let angle_diff :=
          |normalize_angle (angle_to_obstacle - shoot_direction)|
        if angle_diff ≤ 5 ∧ lt_closest distance closest then
          if obstacle.obstacle_type.isDestructible then
            some (ProjectileHit.mk none (some obstacle.id) 0
              (some obstacle.position))
          else
            some (ProjectileHit.mk none none 0 (some obstacle.position))
        else
          scan_obstacles shooter shoot_direction ammo_range closest
            hit_result rest

/-- `fire_projectile` from `physics.py` lines 367-465.  Returns `none` when
`can_fire` fails (no state change); otherwise returns the updated shooter
(overcharge consumed, ammo count decremented), the updated last-shot
dictionary, and the optional hit.  The shot direction is
`heading + barrel_angle`. -/
noncomputable def fire_projectile (tank : Tank) (all_tanks : List Tank)
    (obstacles : List Obstacle) (current_time : ℝ)
    (last_shot_time : List (String × ℝ)) :
    Option (Tank × List (String × ℝ) × Option ProjectileHit) :=
  if ¬ can_fire tank last_shot_time current_time then none
  else
    match tank.ammo_loaded with
    | none => none
    | some ammo_type =>
      let ammo_range := ammo_type.range
      let base_damage :=
        if tank.is_overcharged then |ammo_type.value| * 2 else |ammo_type.value|
      let tank1 :=
        if tank.is_overcharged then { tank with is_overcharged := false }
        else tank
      let tank2 := { tank1 with ammo := fun a =>
        if a = ammo_type then tank1.ammo ammo_type - 1 else tank1.ammo a }
      let last1 := (tank.id, current_time) :: last_shot_time
      let shoot_direction := tank.heading + tank.barrel_angle
      let scanned :=
        scan_tanks tank2 shoot_direction ammo_range base_damage all_tanks
          none none
      some (tank2, last1,
        scan_obstacles tank2 shoot_direction ammo_range scanned.1 scanned.2
          obstacles)

/-! ## Visibility (`visibility.py`) -/

/-- `SeenTank` as constructed by `check_visibility`
(`visibility.py` lines 125-136). -/
structure SeenTank where
  id : String
  team : ℤ
  tank_type : String
  position : Position
  is_damaged : Bool
  heading : ℝ
  barrel_angle : ℝ
  distance : ℝ

/-- `TankSensorData` as returned by `check_visibility`. -/
structure TankSensorData where
  seen_tanks : List SeenTank
  seen_powerups : List PowerUpData
  seen_obstacles : List Obstacle
  seen_terrains : List Terrain

/-- `calculate_angle_to_target` from `visibility.py` lines 35-50:
`atan2(dy, dx)` in degrees. -/
noncomputable def calculate_angle_to_target (from_pos to_pos : Position) : ℝ :=
  degrees (atan2 (to_pos.y - from_pos.y) (to_pos.x - from_pos.x))

/-- `is_in_vision_cone` from `visibility.py` lines 53-73. -/
def is_in_vision_cone (tank_heading tank_barrel vision_angle
    angle_to_target : ℝ) : Prop :=
  |normalize_angle (angle_to_target -
    normalize_angle (tank_heading + tank_barrel))| ≤ vision_angle / 2

/-- The `SeenTank` record built for a visible tank at the given distance
(`is_damaged` is `hp < 0.3 * max_hp`). -/
noncomputable def mk_seen_tank (other : Tank) (distance : ℝ) : SeenTank :=
  SeenTank.mk other.id other.team other.tank_type other.position
    (if (other.hp : ℝ) < 0.3 * (other.max_hp : ℝ) then true else false)
    other.heading other.barrel_angle distance

/-- The tank loop of `check_visibility` (`visibility.py` lines 106-136):
skip self and dead tanks, reject beyond `vision_range`, reject outside the
vision cone. -/
noncomputable def visible_tanks (tank : Tank) : List Tank → List SeenTank
  | [] => []
  | other :: rest =>
    if other.id = tank.id then visible_tanks tank rest
    else if other.hp ≤ 0 then visible_tanks tank rest
    else
      let distance := calculate_distance tank.position other.position
      if distance > tank.vision_range then visible_tanks tank rest
      else
        let angle_to_target :=
          calculate_angle_to_target tank.position other.position
        if ¬ is_in_vision_cone tank.heading tank.barrel_angle
            tank.vision_angle angle_to_target then
          visible_tanks tank rest
        else mk_seen_tank other distance :: visible_tanks tank rest

/-- The power-up loop of `check_visibility` (`visibility.py` lines 141-153). -/
noncomputable def visible_powerups (tank : Tank) :
    List PowerUpData → List PowerUpData
  | [] => []
  | p :: rest =>
    let distance := calculate_distance tank.position p.position
    if distance > tank.vision_range then visible_powerups tank rest
    else
      let angle_to_target := calculate_angle_to_target tank.position p.position
      if is_in_vision_cone tank.heading tank.barrel_angle tank.vision_angle
          angle_to_target then
        p :: visible_powerups tank rest
      else visible_powerups tank rest

/-- The obstacle loop of `check_visibility` (`visibility.py` lines 158-173):
also skips not-alive obstacles. -/
noncomputable def visible_obstacles (tank : Tank) :
    List Obstacle → List Obstacle
  | [] => []
  | o :: rest =>
    if ¬ o.is_alive then visible_obstacles tank rest
    else
      let distance := calculate_distance tank.position o.position
      if distance > tank.vision_range then visible_obstacles tank rest
      else
        let angle_to_target :=
          calculate_angle_to_target tank.position o.position
        if is_in_vision_cone tank.heading tank.barrel_angle tank.vision_angle
            angle_to_target then
          o :: visible_obstacles tank rest
        else visible_obstacles tank rest

/-- The terrain loop of `check_visibility` (`visibility.py` lines 178-190). -/
noncomputable def visible_terrains (tank : Tank) :
    List Terrain → List Terrain
  | [] => []
  | t :: rest =>
    let distance := calculate_distance tank.position t.position
    if distance > tank.vision_range then visible_terrains tank rest
    else
      let angle_to_target := calculate_angle_to_target tank.position t.position
      if is_in_vision_cone tank.heading tank.barrel_angle tank.vision_angle
          angle_to_target then
        t :: visible_terrains tank rest
      else visible_terrains tank rest

/-- `check_visibility` from `visibility.py` lines 76-197. -/
noncomputable def check_visibility (tank : Tank) (all_tanks : List Tank)
    (obstacles : List Obstacle) (terrains : List Terrain)
    (powerups : List PowerUpData) : TankSensorData :=
  TankSensorData.mk (visible_tanks tank all_tanks)
    (visible_powerups tank powerups)
    (visible_obstacles tank obstacles)
    (visible_terrains tank terrains)

/-! ## The physics tick (`physics.py` lines 552-694)

The Python loops `for tank in all_tanks` mutate tank objects in place; the
list itself is never modified.  We model this by folding each phase over the
fixed list of tank ids, looking up the current tank state by id and writing
updates back by id. -/

/-- The evolving state of one `process_physics_tick` call: the world lists
that the tick mutates plus the local variables (`moving_tanks`,
`previous_positions`) and the `results` dictionary. -/
structure TickState where
  tanks : List Tank
  obstacles : List Obstacle
  powerups : List PowerUpData
  last_shot_times : List (String × ℝ)
  moving_tanks : List String
  previous_positions : List (String × Position)
  collisions : List CollisionResult
  projectile_hits : List ProjectileHit
  picked_powerups : List (String × PowerUpData)
  destroyed_tanks : List String
  destroyed_obstacles : List String

/-- Look up the current state of the tank object with the given id. -/
def find_tank (tanks : List Tank) (id : String) : Option Tank :=
  tanks.find? fun t => t.id == id

/-- Write an updated tank object back into the world list (replaces the
entries with its id). -/
def update_tank (tanks : List Tank) (t : Tank) : List Tank :=
  tanks.map fun u => if u.id = t.id then t else u

/-- Phase 1 of `process_physics_tick` (lines 586-596), for one tank: skip if
`hp <= 0` or no action, else rotate hull then barrel. -/
noncomputable def phase1_step (actions : List (String × ActionCommand))
    (delta_time : ℝ) (st : TickState) (id : String) : TickState :=
  match find_tank st.tanks id with
  | none => st
  | some tank =>
    if tank.hp ≤ 0 then st
    else
      match actions.lookup id with
      | none => st
      | some action =>
        let tank1 := rotate_heading tank action.heading_rotation_angle
          delta_time
        let tank2 := rotate_barrel tank1 action.barrel_rotation_angle
          delta_time
        { st with tanks := update_tank st.tanks tank2 }

/-- The `if hit.hit_tank_id:` block of phase 2 (lines 612-617): find the
target by id in the current world and apply the hit's damage to it. -/
def apply_hit_to_tank (st : TickState) (hit : ProjectileHit) : TickState :=
  match hit.hit_tank_id with
  | none => st
  | some tid =>
    match find_tank st.tanks tid with
    | none => st
    | some target =>
      let ad := apply_damage target hit.damage_dealt
      let st1 := { st with tanks := update_tank st.tanks ad.1 }
      if ad.2 then
        { st1 with destroyed_tanks := st1.destroyed_tanks ++ [tid] }
      else st1

/-- The `if hit.hit_obstacle_id:` block of phase 2 (lines 620-624): mark the
obstacle not alive. -/
def apply_hit_to_obstacle (st : TickState) (hit : ProjectileHit) : TickState :=
  match hit.hit_obstacle_id with
  | none => st
  | some oid =>
    match st.obstacles.find? (fun o => o.id == oid) with
    | none => st
    | some _ =>
      { st with
        obstacles := st.obstacles.map fun o =>
          if o.id = oid then { o with is_alive := false } else o,
        destroyed_obstacles := st.destroyed_obstacles ++ [oid] }

/-- Phase 2 of `process_physics_tick` (lines 598-624), for one tank: skip if
dead, actionless or not firing; otherwise fire and, if something was hit,
record the hit and apply its consequences. -/
noncomputable def phase2_step (actions : List (String × ActionCommand))
    (current_time : ℝ) (st : TickState) (id : String) : TickState :=
  match find_tank st.tanks id with
  | none => st
  | some tank =>
    if tank.hp ≤ 0 then st
    else
      match actions.lookup id with
      | none => st
      | some action =>
        if ¬ action.should_fire then st
        else
          match fire_projectile tank st.tanks st.obstacles current_time
              st.last_shot_times with
          | none => st
          | some fired =>
            let st1 := { st with
              tanks := update_tank st.tanks fired.1,
              last_shot_times := fired.2.1 }
            match fired.2.2 with
            | none => st1
            | some hit =>
              let st2 := { st1 with
                projectile_hits := st1.projectile_hits ++ [hit] }
              apply_hit_to_obstacle (apply_hit_to_tank st2 hit) hit

/-- Phase 3 of `process_physics_tick` (lines 626-648), for one tank: skip if
dead, actionless or commanding zero speed; otherwise record the pre-move
position, mark the tank moving, move it, and apply any terrain damage. -/
noncomputable def phase3_step (actions : List (String × ActionCommand))
    (terrains : List Terrain) (delta_time : ℝ) (st : TickState)
    (id : String) : TickState :=
  match find_tank st.tanks id with
  | none => st
  | some tank =>
    if tank.hp ≤ 0 then st
    else
      match actions.lookup id with
      | none => st
      | some action =>
        if action.move_speed = 0 then st
        else
          let st1 := { st with
            previous_positions := (id, tank.position) :: st.previous_positions,
            moving_tanks := id :: st.moving_tanks }
          let moved := move_tank tank action.move_speed terrains delta_time
          let tank1 := { tank with position := moved.1 }
          let st2 := { st1 with tanks := update_tank st1.tanks tank1 }
          if moved.2 > 0 then
            let ad := apply_damage tank1 moved.2
            let st3 := { st2 with tanks := update_tank st2.tanks ad.1 }
            if ad.2 then
              { st3 with destroyed_tanks := st3.destroyed_tanks ++ [id] }
            else st3
          else st2

/-- Phase 4 of `process_physics_tick` (lines 650-681), for one tank: skip if
dead or not moving this tick; otherwise run `check_all_collisions` (whose
position reverts always take effect), and if a collision was found record
it, apply `damage_to_tank1` to the examined tank, and destroy a rammed
tree. -/
noncomputable def phase4_step (map_size : ℤ × ℤ) (st : TickState)
    (id : String) : TickState :=
  match find_tank st.tanks id with
  | none => st
  | some tank =>
    if tank.hp ≤ 0 then st
    else if id ∉ st.moving_tanks then st
    else
      let prev := (st.previous_positions.lookup id).getD tank.position
      let res := check_all_collisions tank prev st.tanks st.obstacles
        map_size st.moving_tanks
      let st1 := { st with tanks := update_tank st.tanks res.2.1 }
      let st2 :=
        match res.2.2 with
        | none => st1
        | some other => { st1 with tanks := update_tank st1.tanks other }
      if res.1.has_collision then
        let st3 := { st2 with collisions := st2.collisions ++ [res.1] }
        let st4 :=
          if res.1.damage_to_tank1 > 0 then
            let ad := apply_damage res.2.1 res.1.damage_to_tank1
            let st' := { st3 with tanks := update_tank st3.tanks ad.1 }
            if ad.2 then
              { st' with destroyed_tanks := st'.destroyed_tanks ++ [id] }
            else st'
          else st3
        match res.1.obstacle_destroyed with
        | none => st4
        | some oid =>
          match st4.obstacles.find? (fun o => o.id == oid) with
          | none => st4
          | some _ =>
            { st4 with
              obstacles := st4.obstacles.map fun o =>
                if o.id = oid then { o with is_alive := false } else o,
              destroyed_obstacles := st4.destroyed_obstacles ++ [oid] }
      else st2

/-- `list.remove` on the power-up list: drop the first equal element. -/
noncomputable def remove_first (l : List PowerUpData) (p : PowerUpData) :
    List PowerUpData :=
  match l with
  | [] => []
  | q :: rest => if q = p then rest else q :: remove_first rest p

/-- Phase 5 of `process_physics_tick` (lines 683-692), for one tank: skip if
dead; otherwise pick up the first overlapping power-up, apply it and remove
it from the world. -/
noncomputable def phase5_step (st : TickState) (id : String) : TickState :=
  match find_tank st.tanks id with
  | none => st
  | some tank =>
    if tank.hp ≤ 0 then st
    else
      match check_powerup_pickup tank st.powerups with
      | none => st
      | some p =>
        { st with
          tanks := update_tank st.tanks (apply_powerup tank p),
          powerups := remove_first st.powerups p,
          picked_powerups := st.picked_powerups ++ [(id, p)] }

/-- `process_physics_tick` from `physics.py` lines 552-694: the five phases
run in order, each iterating over the tanks in list order. -/
noncomputable def process_physics_tick (all_tanks : List Tank)
    (actions : List (String × ActionCommand)) (map_info : MapInfo)
    (delta_time current_time : ℝ)
    (last_shot_times : List (String × ℝ)) : TickState :=
  let ids := all_tanks.map Tank.id
  let st0 : TickState := TickState.mk all_tanks map_info.obstacle_list
    map_info.powerup_list last_shot_times [] [] [] [] [] [] []
  let st1 := ids.foldl (phase1_step actions delta_time) st0
  let st2 := ids.foldl (phase2_step actions current_time) st1
  let st3 := ids.foldl (phase3_step actions map_info.terrain_list delta_time) st2
  let st4 := ids.foldl (phase4_step map_info.size) st3
  ids.foldl phase5_step st4

/-! ## Scoring fragment of the game loop (`game_loop.py` lines 797-830) -/

/-- The inner `for tank_id, action in actions_converted.items()` search of
`GameLoop._process_physics` (lines 801-808): the first entry whose action
has `should_fire` set — this is what the loop credits a hit to, regardless
of which tank actually produced the hit. -/
def first_firing : List (String × ActionCommand) → Option String
  | [] => none
  | (tid, a) :: rest => if a.should_fire then some tid else first_firing rest

/-- The `for hit in results.get("projectile_hits", [])` loop of
`GameLoop._process_physics` (lines 798-808): for every hit on a tank,
record the first firing action's tank as the victim's last attacker. -/
def update_last_attacker (hits : List ProjectileHit)
    (actions : List (String × ActionCommand))
    (last_attacker : List (String × String)) : List (String × String) :=
  hits.foldl
    (fun la hit =>
      match hit.hit_tank_id with
      | none => la
      | some victim =>
        match first_firing actions with
        | none => la
        | some tid => (victim, tid) :: la)
    last_attacker

/-- The kill-credit lookup of `GameLoop._check_death_conditions`
(lines 826-830): `self.last_attacker.get(tank_id)` for a removed tank. -/
def kill_credit (last_attacker : List (String × String)) (victim : String) :
    Option String :=
  last_attacker.lookup victim

/-! ## Properties of `normalize_angle` -/

theorem normalize_loop_down_of_le {x : ℝ} (h : x ≤ 180) :
    normalize_loop_down x = x := by
  rw [normalize_loop_down]
  simp [not_lt.mpr h]

theorem normalize_loop_up_of_ge {x : ℝ} (h : -180 ≤ x) :
    normalize_loop_up x = x := by
  rw [normalize_loop_up]
  simp [not_lt.mpr h]

theorem normalize_loop_down_le (x : ℝ) : normalize_loop_down x ≤ 180 := by
  induction x using normalize_loop_down.induct with
  | case1 x h ih => rw [normalize_loop_down, if_pos h]; exact ih
  | case2 x h => rw [normalize_loop_down, if_neg h]; linarith [not_lt.mp h]

theorem normalize_loop_down_gt (x : ℝ) :
    -180 < x → -180 < normalize_loop_down x := by
  induction x using normalize_loop_down.induct with
  | case1 x hc ih =>
    intro h
    rw [normalize_loop_down, if_pos hc]
    exact ih (by linarith)
  | case2 x hc =>
    intro h
    rw [normalize_loop_down, if_neg hc]
    exact h

theorem normalize_loop_up_ge (x : ℝ) : -180 ≤ normalize_loop_up x := by
  induction x using normalize_loop_up.induct with
  | case1 x h ih => rw [normalize_loop_up, if_pos h]; exact ih
  | case2 x h => rw [normalize_loop_up, if_neg h]; linarith [not_lt.mp h]

theorem normalize_loop_up_le (x : ℝ) :
    x ≤ 180 → normalize_loop_up x ≤ 180 := by
  induction x using normalize_loop_up.induct with
  | case1 x hc ih =>
    intro h
    rw [normalize_loop_up, if_pos hc]
    exact ih (by linarith)
  | case2 x hc =>
    intro h
    rw [normalize_loop_up, if_neg hc]
    exact h

/-- `normalize_angle` always lands in the closed interval `[-180, 180]`. -/
theorem normalize_angle_mem (x : ℝ) :
    -180 ≤ normalize_angle x ∧ normalize_angle x ≤ 180 := by
  unfold normalize_angle
  exact ⟨normalize_loop_up_ge _,
    normalize_loop_up_le _ (normalize_loop_down_le x)⟩

/-- `normalize_angle` fixes every point of `[-180, 180]`. -/
theorem normalize_angle_fix {x : ℝ} (h1 : -180 ≤ x) (h2 : x ≤ 180) :
    normalize_angle x = x := by
  unfold normalize_angle
  rw [normalize_loop_down_of_le h2, normalize_loop_up_of_ge h1]

/-- C7 counterexample: `normalize_angle 180` is `180` itself, which is not
in the half-open interval `[-180, 180)` claimed by the specification. -/
theorem normalize_angle_at_180 :
    normalize_angle (180 : ℝ) = 180 ∧ ¬ normalize_angle (180 : ℝ) < 180 := by
  have h : normalize_angle (180 : ℝ) = 180 :=
    normalize_angle_fix (by norm_num) (by norm_num)
  exact ⟨h, by rw [h]; exact lt_irrefl _⟩

/-- C7 (amended): `normalize_angle` is idempotent, and its result always
lies in the closed interval `[-180, 180]` (the right endpoint `180` is
attained, e.g. at input `180`, so the interval cannot be half-open). -/
theorem normalize_angle_idempotent_and_range (x : ℝ) :
    normalize_angle (normalize_angle x) = normalize_angle x ∧
    -180 ≤ normalize_angle x ∧ normalize_angle x ≤ 180 := by
  obtain ⟨h1, h2⟩ := normalize_angle_mem x
  exact ⟨normalize_angle_fix h1 h2, h1, h2⟩

/-! ## C1: shield-first damage absorption -/

/-- Evaluation of the two mutable components of `apply_damage`. -/
theorem apply_damage_components (tank : Tank) (d : ℤ) :
    (apply_damage tank d).1.hp =
      (if tank.shield > 0 then tank.hp - (d - min tank.shield d)
       else tank.hp - d) ∧
    (apply_damage tank d).1.shield =
      (if tank.shield > 0 then tank.shield - min tank.shield d
       else tank.shield) := by
  unfold apply_damage
  split <;> simp

/-- C1: for every tank with a non-negative shield and every non-negative
damage `d`, `apply_damage` absorbs with the shield first: if `shield ≥ d`
the HP is unchanged and the shield drops by exactly `d`; otherwise the
shield drops to `0` and the HP drops by exactly `d - shield_before`. -/
theorem apply_damage_shield_first (tank : Tank) (d : ℤ)
    (hd : 0 ≤ d) (hs : 0 ≤ tank.shield) :
    (d ≤ tank.shield →
      (apply_damage tank d).1.hp = tank.hp ∧
      (apply_damage tank d).1.shield = tank.shield - d) ∧
    (tank.shield < d →
      (apply_damage tank d).1.shield = 0 ∧
      (apply_damage tank d).1.hp = tank.hp - (d - tank.shield)) := by
  have hc := apply_damage_components tank d
  by_cases hpos : tank.shield > 0 <;> simp only [hpos, if_pos, if_neg,
    if_true, if_false] at hc <;> constructor <;> intro h <;>
    constructor <;> omega

/-- A sample heavy tank (archetype constants from `final_api.HeavyTank`). -/
noncomputable def sample_tank : Tank :=
  Tank.mk "t1" 1 "HeavyTank" 120 80 120 80 (Position.mk 10 10) 0 0 2 60 140
    8 60 false (some .heavy) (fun _ => 5) (fun _ => 5) (5, 5)

/-- C1 witness: the sample tank (shield 80) hit for 30 keeps its HP and
loses exactly 30 shield. -/
theorem apply_damage_shield_first_witness :
    (apply_damage sample_tank 30).1.hp = 120 ∧
    (apply_damage sample_tank 30).1.shield = 50 := by
  have h := (apply_damage_shield_first sample_tank 30 (by norm_num)
    (by norm_num [sample_tank])).1 (by norm_num [sample_tank])
  simpa [sample_tank] using h

/-! ## C4: HP/shield bounds after damage and heals -/

/-- A tank with 5 HP and no shield. -/
noncomputable def frail_tank : Tank :=
  Tank.mk "f1" 1 "Sniper" 5 0 40 30 (Position.mk 10 10) 0 0 5 90 200
    25 20 false (some .light) (fun _ => 5) (fun _ => 5) (5, 5)

/-- C4 counterexample: `apply_damage` stores a negative HP — a tank at 5 HP
with no shield hit for 10 ends at HP `-5`, violating `0 ≤ hp`. -/
theorem apply_damage_negative_hp :
    (apply_damage frail_tank 10).1.hp = -5 ∧
    ¬ (0 ≤ (apply_damage frail_tank 10).1.hp) := by
  constructor
  · norm_num [apply_damage, frail_tank]
  · norm_num [apply_damage, frail_tank]

/-- C4 (amended): after `apply_damage` the shield is clamped at `0` and
never exceeds its bound, and HP never exceeds `max_hp` — but HP is *not*
clamped at `0` (it may be stored negative; the function returns the
`hp ≤ 0` destroyed flag instead).  Power-up application does clamp: it
keeps `0 ≤ hp ≤ max_hp` and `0 ≤ shield ≤ max_shield`. -/
theorem damage_and_powerup_bounds :
    (∀ (tank : Tank) (d : ℤ), 0 ≤ d →
      0 ≤ tank.shield → tank.shield ≤ tank.max_shield →
      tank.hp ≤ tank.max_hp →
      0 ≤ (apply_damage tank d).1.shield ∧
      (apply_damage tank d).1.shield ≤ tank.max_shield ∧
      (apply_damage tank d).1.hp ≤ tank.max_hp) ∧
    (∀ (tank : Tank) (p : PowerUpData),
      0 ≤ tank.hp → tank.hp ≤ tank.max_hp →
      0 ≤ tank.shield → tank.shield ≤ tank.max_shield →
      0 ≤ (apply_powerup tank p).hp ∧
      (apply_powerup tank p).hp ≤ tank.max_hp ∧
      0 ≤ (apply_powerup tank p).shield ∧
      (apply_powerup tank p).shield ≤ tank.max_shield) := by
  constructor
  · intro tank d hd hs1 hs2 hh
    have hc := apply_damage_components tank d
    by_cases hpos : tank.shield > 0 <;> simp only [hpos, if_pos, if_neg,
      if_true, if_false] at hc <;> refine ⟨by omega, by omega, by omega⟩
  · intro tank p hh1 hh2 hs1 hs2
    have hv : 0 ≤ p.value := by
      cases h : p.powerup_type <;>
        simp [PowerUpData.value, PowerUpType.value, h]
    cases h : p.powerup_type <;>
      simp only [apply_powerup, h, PowerUpType.ammoTypeOf] <;>
      refine ⟨by omega, by omega, by omega, by omega⟩

/-- C4 witness (amended claim): the frail tank hit for 10 keeps its shield
at 0 within bounds and HP below max, and a medkit on the sample tank keeps
HP within `[0, max_hp]`. -/
theorem damage_and_powerup_bounds_witness :
    (0 ≤ (apply_damage frail_tank 10).1.shield ∧
     (apply_damage frail_tank 10).1.shield ≤ frail_tank.max_shield ∧
     (apply_damage frail_tank 10).1.hp ≤ frail_tank.max_hp) ∧
    (0 ≤ (apply_powerup sample_tank
        (PowerUpData.mk "p1" (Position.mk 10 10) .medkit (2, 2))).hp ∧
     (apply_powerup sample_tank
        (PowerUpData.mk "p1" (Position.mk 10 10) .medkit (2, 2))).hp ≤
       sample_tank.max_hp ∧
     0 ≤ (apply_powerup sample_tank
        (PowerUpData.mk "p1" (Position.mk 10 10) .medkit (2, 2))).shield ∧
     (apply_powerup sample_tank
        (PowerUpData.mk "p1" (Position.mk 10 10) .medkit (2, 2))).shield ≤
       sample_tank.max_shield) := by
  constructor
  · exact damage_and_powerup_bounds.1 frail_tank 10 (by norm_num)
      (by norm_num [frail_tank]) (by norm_num [frail_tank])
      (by norm_num [frail_tank])
  · exact damage_and_powerup_bounds.2 sample_tank _
      (by norm_num [sample_tank]) (by norm_num [sample_tank])
      (by norm_num [sample_tank]) (by norm_num [sample_tank])

/-! ## C5: reload discipline -/

/-- C5: a successful fire (`can_fire` holds) records the shot time
`t` for the shooter, and with that record any fire attempt by the same tank
id with the same loaded ammo type at a time `t'` with
`t' - t < reload duration` is rejected by `can_fire`. -/
theorem fire_resets_reload (tank tank2 : Tank) (all_tanks : List Tank)
    (obstacles : List Obstacle) (ls : List (String × ℝ)) (t t' : ℝ)
    (a : AmmoType)
    (hl : tank.ammo_loaded = some a)
    (hc : can_fire tank ls t)
    (hid : tank2.id = tank.id)
    (hl2 : tank2.ammo_loaded = some a)
    (ht : t' - t < a.reloadTime) :
    (∃ tank1 hit, fire_projectile tank all_tanks obstacles t ls =
      some (tank1, (tank.id, t) :: ls, hit)) ∧
    ¬ can_fire tank2 ((tank.id, t) :: ls) t' := by
  constructor
  · unfold fire_projectile
    rw [if_neg (not_not_intro hc)]
    simp only [hl]
    exact ⟨_, _, rfl⟩
  · simp only [can_fire, hl2]
    rintro ⟨-, h2⟩
    have hget : dict_get ((tank.id, t) :: ls) tank2.id (-999) = t := by
      simp [dict_get, List.lookup, hid]
    rw [hget] at h2
    linarith

/-- C5 witness: the sample tank fires at time 0 and is then rejected at time
1 (heavy ammo reloads in 2). -/
theorem fire_resets_reload_witness :
    (∃ tank1 hit, fire_projectile sample_tank [] [] 0 [] =
      some (tank1, [(sample_tank.id, 0)], hit)) ∧
    ¬ can_fire sample_tank [(sample_tank.id, 0)] 1 := by
  refine fire_resets_reload sample_tank sample_tank [] [] [] 0 1 .heavy
    rfl ?_ rfl rfl ?_
  · simp only [can_fire, sample_tank]
    refine ⟨by norm_num, ?_⟩
    norm_num [dict_get, AmmoType.reloadTime]
  · norm_num [AmmoType.reloadTime]

/-! ## C6: visibility range and cone soundness -/

theorem visible_tanks_sound (tank : Tank) (l : List Tank) :
    ∀ st ∈ visible_tanks tank l,
      calculate_distance tank.position st.position ≤ tank.vision_range ∧
      is_in_vision_cone tank.heading tank.barrel_angle tank.vision_angle
        (calculate_angle_to_target tank.position st.position) := by
  induction l with
  | nil => simp [visible_tanks]
  | cons o rest ih =>
    intro st hst
    simp only [visible_tanks] at hst
    split_ifs at hst with h1 h2 h3 h4
    · exact ih st hst
    · exact ih st hst
    · exact ih st hst
    · rcases List.mem_cons.mp hst with h | h
      · subst h
        exact ⟨not_lt.mp h3, h4⟩
      · exact ih st h
    · exact ih st hst

theorem visible_powerups_sound (tank : Tank) (l : List PowerUpData) :
    ∀ p ∈ visible_powerups tank l,
      calculate_distance tank.position p.position ≤ tank.vision_range ∧
      is_in_vision_cone tank.heading tank.barrel_angle tank.vision_angle
        (calculate_angle_to_target tank.position p.position) := by
  induction l with
  | nil => simp [visible_powerups]
  | cons o rest ih =>
    intro p hp
    simp only [visible_powerups] at hp
    split_ifs at hp with h1 h2
    · exact ih p hp
    · rcases List.mem_cons.mp hp with h | h
      · subst h
        exact ⟨not_lt.mp h1, h2⟩
      · exact ih p h
    · exact ih p hp

theorem visible_obstacles_sound (tank : Tank) (l : List Obstacle) :
    ∀ o ∈ visible_obstacles tank l,
      calculate_distance tank.position o.position ≤ tank.vision_range ∧
      is_in_vision_cone tank.heading tank.barrel_angle tank.vision_angle
        (calculate_angle_to_target tank.position o.position) := by
  induction l with
  | nil => simp [visible_obstacles]
  | cons o rest ih =>
    intro x hx
    simp only [visible_obstacles] at hx
    split_ifs at hx with h1 h2 h3
    · exact ih x hx
    · rcases List.mem_cons.mp hx with h | h
      · subst h
        exact ⟨not_lt.mp h2, h3⟩
      · exact ih x h
    · exact ih x hx
    · exact ih x hx

theorem visible_terrains_sound (tank : Tank) (l : List Terrain) :
    ∀ t ∈ visible_terrains tank l,
      calculate_distance tank.position t.position ≤ tank.vision_range ∧
      is_in_vision_cone tank.heading tank.barrel_angle tank.vision_angle
        (calculate_angle_to_target tank.position t.position) := by
  induction l with
  | nil => simp [visible_terrains]
  | cons o rest ih =>
    intro x hx
    simp only [visible_terrains] at hx
    split_ifs at hx with h1 h2
    · exact ih x hx
    · rcases List.mem_cons.mp hx with h | h
      · subst h
        exact ⟨not_lt.mp h1, h2⟩
      · exact ih x h
    · exact ih x hx

/-- C6: everything `check_visibility` reports is within the observer's
vision range and inside its vision cone (sight direction
`normalize_angle(heading + barrel_angle)`, half-width `vision_angle / 2`):
an entity beyond range, or within range but outside the half-cone, is never
reported, in any of the four reported lists. -/
theorem check_visibility_sound (tank : Tank) (all_tanks : List Tank)
    (obstacles : List Obstacle) (terrains : List Terrain)
    (powerups : List PowerUpData) :
    (∀ st ∈ (check_visibility tank all_tanks obstacles terrains
        powerups).seen_tanks,
      calculate_distance tank.position st.position ≤ tank.vision_range ∧
      is_in_vision_cone tank.heading tank.barrel_angle tank.vision_angle
        (calculate_angle_to_target tank.position st.position)) ∧
    (∀ p ∈ (check_visibility tank all_tanks obstacles terrains
        powerups).seen_powerups,
      calculate_distance tank.position p.position ≤ tank.vision_range ∧
      is_in_vision_cone tank.heading tank.barrel_angle tank.vision_angle
        (calculate_angle_to_target tank.position p.position)) ∧
    (∀ o ∈ (check_visibility tank all_tanks obstacles terrains
        powerups).seen_obstacles,
      calculate_distance tank.position o.position ≤ tank.vision_range ∧
      is_in_vision_cone tank.heading tank.barrel_angle tank.vision_angle
        (calculate_angle_to_target tank.position o.position)) ∧
    (∀ t ∈ (check_visibility tank all_tanks obstacles terrains
        powerups).seen_terrains,
      calculate_distance tank.position t.position ≤ tank.vision_range ∧
      is_in_vision_cone tank.heading tank.barrel_angle tank.vision_angle
        (calculate_angle_to_target tank.position t.position)) := by
  exact ⟨visible_tanks_sound tank all_tanks,
    visible_powerups_sound tank powerups,
    visible_obstacles_sound tank obstacles,
    visible_terrains_sound tank terrains⟩

/-- An observer at the origin, heading east, with a full 360-degree vision
cone of range 10. -/
noncomputable def obs_tank : Tank :=
  Tank.mk "t1" 1 "LightTank" 100 30 100 30 (Position.mk 0 0) 0 0 10 140 180
    10 360 false (some .light) (fun _ => 5) (fun _ => 15) (5, 5)

/-- A live tank at (3, 4), at distance 5 from the origin. -/
noncomputable def tgt_tank : Tank :=
  Tank.mk "t2" 2 "LightTank" 100 30 100 30 (Position.mk 3 4) 0 0 10 140 180
    10 40 false (some .light) (fun _ => 5) (fun _ => 15) (5, 5)

theorem dist_obs_tgt :
    calculate_distance (Position.mk (0 : ℝ) 0) (Position.mk 3 4) = 5 := by
  unfold calculate_distance
  have h1 : ((3 : ℝ) - 0) * ((3 : ℝ) - 0) + ((4 : ℝ) - 0) * ((4 : ℝ) - 0)
      = 5 ^ 2 := by norm_num
  rw [h1, Real.sqrt_sq (by norm_num : (0 : ℝ) ≤ 5)]

theorem cone_360 (θ : ℝ) : is_in_vision_cone 0 0 360 θ := by
  unfold is_in_vision_cone
  have h0 : normalize_angle ((0 : ℝ) + 0) = 0 := by
    rw [show ((0 : ℝ) + 0) = 0 by ring]
    exact normalize_angle_fix (by norm_num) (by norm_num)
  rw [h0, sub_zero]
  refine abs_le.mpr ⟨?_, ?_⟩
  · linarith [(normalize_angle_mem θ).1]
  · linarith [(normalize_angle_mem θ).2]

theorem obs_sees_tgt :
    mk_seen_tank tgt_tank 5 ∈
      (check_visibility obs_tank [tgt_tank] [] [] []).seen_tanks := by
  have hd : calculate_distance obs_tank.position tgt_tank.position = 5 := by
    simpa [obs_tank, tgt_tank] using dist_obs_tgt
  have hc : is_in_vision_cone obs_tank.heading obs_tank.barrel_angle
      obs_tank.vision_angle
      (calculate_angle_to_target obs_tank.position tgt_tank.position) := by
    simpa [obs_tank] using cone_360
      (calculate_angle_to_target obs_tank.position tgt_tank.position)
  simp only [check_visibility, visible_tanks, hd, hc]
  rw [if_neg (by simp [obs_tank, tgt_tank]),
    if_neg (by norm_num [tgt_tank]),
    if_neg (by norm_num [obs_tank])]
  simp

/-- C6 witness: the tank at (3, 4) is reported by the 360-degree observer,
and the theorem yields that the reported entity is within range and within
the cone. -/
theorem check_visibility_sound_witness :
    calculate_distance obs_tank.position (mk_seen_tank tgt_tank 5).position ≤
      obs_tank.vision_range ∧
    is_in_vision_cone obs_tank.heading obs_tank.barrel_angle
      obs_tank.vision_angle
      (calculate_angle_to_target obs_tank.position
        (mk_seen_tank tgt_tank 5).position) :=
  (check_visibility_sound obs_tank [tgt_tank] [] [] []).1
    (mk_seen_tank tgt_tank 5) obs_sees_tgt

/-! ## C2: the both-moving collision of Phase E

Scenario: two identical tanks spawned 3 units apart ((50, 50) and (53, 50)),
both moving at each other with speed 4 exceeding the gap, so after Phase D
tank A sits at (54, 50) and tank B at (49, 50), overlapping.  Phase E is fed
below exactly this post-move state. -/

/-- Tank "A" after its move: pre-move position (50, 50), post-move (54, 50). -/
noncomputable def tank_A2 : Tank :=
  Tank.mk "A" 1 "LightTank" 100 0 100 30 (Position.mk 54 50) 0 0 10 140 180
    10 40 false none (fun _ => 0) (fun _ => 0) (6, 6)

/-- Tank "B" after its move: pre-move position (53, 50), post-move (49, 50). -/
noncomputable def tank_B2 : Tank :=
  Tank.mk "B" 1 "LightTank" 100 0 100 30 (Position.mk 49 50) 180 0 10 140 180
    10 40 false none (fun _ => 0) (fun _ => 0) (6, 6)

/-- The Phase E input state for the scenario: both tanks moved this tick and
their pre-move positions are recorded. -/
noncomputable def c2_state : TickState :=
  TickState.mk [tank_A2, tank_B2] [] [] [] ["A", "B"]
    [("A", Position.mk 50 50), ("B", Position.mk 53 50)] [] [] [] [] []

/-- Tank "A" after Phase E: at (53, 50) — tank B's pre-move position, not its
own pre-move position (50, 50) — with 25 collision damage taken. -/
noncomputable def tank_A2_final : Tank :=
  Tank.mk "A" 1 "LightTank" 75 0 100 30 (Position.mk 53 50) 0 0 10 140 180
    10 40 false none (fun _ => 0) (fun _ => 0) (6, 6)

/-- Tank "B" after Phase E: at its own pre-move position (53, 50) with 25
collision damage taken. -/
noncomputable def tank_B2_final : Tank :=
  Tank.mk "B" 1 "LightTank" 75 0 100 30 (Position.mk 53 50) 180 0 10 140 180
    10 40 false none (fun _ => 0) (fun _ => 0) (6, 6)

theorem c2_no_boundary_A : ¬ check_tank_boundary_collision tank_A2 (100, 100) := by
  unfold check_tank_boundary_collision
  push_neg
  norm_num [tank_A2]

theorem c2_overlap :
    rectangles_overlap (Position.mk (54 : ℝ) 50) (6, 6)
      (Position.mk 49 50) (6, 6) := by
  unfold rectangles_overlap
  push_neg
  norm_num

/-- C2 (code evaluated at the failing input): running Phase E on the
both-moving overlap above ends with BOTH tanks at (53, 50) — tank B's
pre-move position — so tank A is *not* reverted to its own pre-move position
(50, 50); each tank does receive the both-moving damage 25. -/
theorem phase4_both_moving_eval :
    (phase4_step (100, 100) (phase4_step (100, 100) c2_state "A") "B").tanks
      = [tank_A2_final, tank_B2_final] ∧
    tank_A2_final.position = Position.mk 53 50 ∧
    tank_A2_final.position ≠ Position.mk 50 50 ∧
    tank_A2_final.hp = tank_A2.hp - 25 ∧
    tank_B2_final.position = Position.mk 53 50 ∧
    tank_B2_final.hp = tank_B2.hp - 25 := by
  refine ⟨?_, rfl, ?_, by norm_num [tank_A2, tank_A2_final], rfl,
    by norm_num [tank_B2, tank_B2_final]⟩
  · norm_num [phase4_step, c2_state, find_tank, List.find?, update_tank,
      check_all_collisions, check_tank_boundary_collision,
      find_tank_collision, check_tank_tank_collision, rectangles_overlap,
      resolve_collision, apply_damage, List.lookup, tank_A2, tank_B2,
      tank_A2_final, tank_B2_final, beq_iff_eq,
      (show ("A" : String) ≠ "B" from by decide),
      (show ("B" : String) ≠ "A" from by decide),
      (show (("B" : String) == "A") = false from by decide),
      (show (("A" : String) == "B") = false from by decide),
      (show (("A" : String) == "A") = true from by decide),
      (show (("B" : String) == "B") = true from by decide)]
  · intro h
    have := congrArg Position.x h
    norm_num [tank_A2_final] at this

/-! ## Infrastructure lemmas about the id-keyed state model -/

theorem find_tank_id {tanks : List Tank} {id : String} {t : Tank}
    (h : find_tank tanks id = some t) : t.id = id := by
  have := List.find?_some h
  simpa [beq_iff_eq] using this

theorem find_tank_update (tanks : List Tank) (t : Tank) (id : String) :
    find_tank (update_tank tanks t) id =
      (find_tank tanks id).map (fun u => if u.id = t.id then t else u) := by
  induction tanks with
  | nil => rfl
  | cons a rest ih =>
    unfold update_tank at *
    unfold find_tank at *
    simp only [List.map_cons, List.find?]
    by_cases h : a.id = t.id
    · rw [if_pos h]
      have hsw : (t.id == id) = (a.id == id) := by rw [h]
      rw [hsw]
      cases hba : (a.id == id) with
      | true =>
        have hid : id = t.id := ((beq_iff_eq.mp hba).symm).trans h
        simp [hba, hid, h]
      | false => simpa using ih
    · rw [if_neg h]
      cases hba : (a.id == id) with
      | true =>
        have hid : ¬ id = t.id := fun hc => h ((beq_iff_eq.mp hba).trans hc)
        simp [hba, hid, h]
      | false => simpa using ih

theorem apply_damage_id (t : Tank) (d : ℤ) : (apply_damage t d).1.id = t.id := by
  unfold apply_damage
  split <;> rfl

theorem apply_damage_hp_mono (t : Tank) (d : ℤ) (hd : 0 ≤ d) :
    (apply_damage t d).1.hp ≤ t.hp := by
  have hc := apply_damage_components t d
  by_cases hpos : t.shield > 0 <;>
    simp only [hpos, if_pos, if_neg, if_true, if_false] at hc <;> omega

/-! ## C8: full speed across a Water patch -/

/-- C8: if the terrain lookup at the tank's position finds a patch with
speed modifier 0.7 and damage 10 (a `Water` patch) and the tank commands its
full (positive) top speed, then `move_tank` displaces it by exactly
`top_speed * 0.7 * Δt` along its heading and reports 10 terrain damage, and
the Phase D loop body (`phase3_step`) leaves the tank exactly at that
displaced position with the 10 damage applied shield-first by
`apply_damage`. -/
theorem water_full_speed_tick (tank : Tank) (terrains : List Terrain)
    (w : Terrain) (dt : ℝ) (st : TickState) (action : ActionCommand)
    (actions : List (String × ActionCommand))
    (hw : get_terrain_at_position tank.position terrains = some w)
    (hmod : w.movement_speed_modifier = 0.7)
    (hdmg : w.deal_damage = 10)
    (htop : 0 < tank.top_speed)
    (halive : 0 < tank.hp)
    (hfind : find_tank st.tanks tank.id = some tank)
    (hact : actions.lookup tank.id = some action)
    (hspeed : action.move_speed = tank.top_speed) :
    (move_tank tank action.move_speed terrains dt).1.x =
      tank.position.x +
        Real.cos (radians tank.heading) * (tank.top_speed * 0.7) * dt ∧
    (move_tank tank action.move_speed terrains dt).1.y =
      tank.position.y +
        Real.sin (radians tank.heading) * (tank.top_speed * 0.7) * dt ∧
    (move_tank tank action.move_speed terrains dt).2 = 10 ∧
    find_tank (phase3_step actions terrains dt st tank.id).tanks tank.id =
      some (apply_damage
        { tank with position := (move_tank tank action.move_speed terrains dt).1 }
        10).1 := by
  have hclamp : max (-tank.top_speed) (min action.move_speed tank.top_speed)
      = tank.top_speed := by
    rw [hspeed, min_self]
    exact max_eq_right (by linarith)
  have hmove : move_tank tank action.move_speed terrains dt =
      (Position.mk
        (tank.position.x +
          Real.cos (radians tank.heading) * (tank.top_speed * 0.7) * dt)
        (tank.position.y +
          Real.sin (radians tank.heading) * (tank.top_speed * 0.7) * dt),
       10) := by
    unfold move_tank
    rw [hw]
    simp only [hclamp, hmod, hdmg]
  refine ⟨by rw [hmove], by rw [hmove], by rw [hmove], ?_⟩
  rw [hmove]
  unfold phase3_step
  simp only [hfind, hact, hmove]
  rw [if_neg (not_le.mpr halive),
    if_neg (by rw [hspeed]; exact ne_of_gt htop),
    if_pos (by norm_num : (10 : ℤ) > 0)]
  split <;>
    (dsimp only
     rw [find_tank_update, find_tank_update, hfind]
     simp [apply_damage_id])

/-- A Water terrain patch (constants from `final_api.Water`). -/
noncomputable def water_patch : Terrain :=
  Terrain.mk "w1" (Position.mk 20 20) (10, 10) 0.7 10

/-- A tank standing on the water patch. -/
noncomputable def w_tank : Tank :=
  Tank.mk "W" 1 "LightTank" 100 30 100 30 (Position.mk 20 20) 0 0 10 140 180
    10 40 false none (fun _ => 0) (fun _ => 0) (5, 5)

/-- The full-speed command for that tank. -/
noncomputable def w_action : ActionCommand := ActionCommand.mk 0 0 10 false

/-- The tick state holding just that tank. -/
noncomputable def w_state : TickState :=
  TickState.mk [w_tank] [] [] [] [] [] [] [] [] [] []

/-- C8 witness: the concrete tank on the concrete water patch at full speed
for one tick of `Δt = 1`. -/
theorem water_full_speed_tick_witness :
    (move_tank w_tank w_action.move_speed [water_patch] 1).1.x =
      w_tank.position.x +
        Real.cos (radians w_tank.heading) * (w_tank.top_speed * 0.7) * 1 ∧
    (move_tank w_tank w_action.move_speed [water_patch] 1).1.y =
      w_tank.position.y +
        Real.sin (radians w_tank.heading) * (w_tank.top_speed * 0.7) * 1 ∧
    (move_tank w_tank w_action.move_speed [water_patch] 1).2 = 10 ∧
    find_tank (phase3_step [("W", w_action)] [water_patch] 1 w_state
        w_tank.id).tanks w_tank.id =
      some (apply_damage
        { w_tank with
          position := (move_tank w_tank w_action.move_speed [water_patch] 1).1 }
        10).1 := by
  refine water_full_speed_tick w_tank [water_patch] water_patch 1 w_state
    w_action [("W", w_action)] ?_ rfl rfl ?_ ?_ ?_ ?_ rfl
  · unfold get_terrain_at_position
    rw [if_pos]
    unfold rectangles_overlap
    push_neg
    norm_num [w_tank, water_patch]
  · norm_num [w_tank]
  · norm_num [w_tank]
  · simp [w_state, w_tank, find_tank, List.find?]
  · simp [w_tank, List.lookup]

/-! ## C3: hit selection of `fire_projectile` -/

theorem lt_closest_none (d : ℝ) : lt_closest d none := trivial

theorem lt_closest_some {d c : ℝ} : lt_closest d (some c) ↔ d < c := Iff.rfl

/-- The filter of the tank loop of `fire_projectile`: not the shooter
itself, within the ammo range, bearing within 5 degrees of the shot
direction. -/
def tank_in_cone (shooter : Tank) (dir range : ℝ) (t : Tank) : Prop :=
  ¬ t.id = shooter.id ∧
  ¬ calculate_distance shooter.position t.position > range ∧
  |normalize_angle (degrees (atan2 (t.position.y - shooter.position.y)
    (t.position.x - shooter.position.x)) - dir)| ≤ 5

/-- The filter of the obstacle loop of `fire_projectile`: alive, within the
ammo range, bearing within 5 degrees of the shot direction. -/
def obstacle_in_cone (shooter : Tank) (dir range : ℝ) (o : Obstacle) : Prop :=
  o.is_alive = true ∧
  ¬ calculate_distance shooter.position o.position > range ∧
  |normalize_angle (degrees (atan2 (o.position.y - shooter.position.y)
    (o.position.x - shooter.position.x)) - dir)| ≤ 5

/-- Characterization of the tank loop: either nothing in the list improves
on the incoming state, or the result is the hit on a tank in the cone that
is strictly nearest (no tank in the cone is strictly nearer). -/
theorem scan_tanks_spec (shooter : Tank) (dir range : ℝ) (dmg : ℤ)
    (l : List Tank) :
    ∀ (closest : Option ℝ) (hit : Option ProjectileHit),
    (scan_tanks shooter dir range dmg l closest hit = (closest, hit) ∧
      ∀ t ∈ l, tank_in_cone shooter dir range t →
        ¬ lt_closest (calculate_distance shooter.position t.position)
          closest) ∨
    (∃ target ∈ l, tank_in_cone shooter dir range target ∧
      lt_closest (calculate_distance shooter.position target.position)
        closest ∧
      scan_tanks shooter dir range dmg l closest hit =
        (some (calculate_distance shooter.position target.position),
         some (ProjectileHit.mk (some target.id) none dmg
           (some target.position))) ∧
      ∀ t ∈ l, tank_in_cone shooter dir range t →
        ¬ (calculate_distance shooter.position t.position <
           calculate_distance shooter.position target.position)) := by
  induction l with
  | nil =>
    intro closest hit
    left
    exact ⟨rfl, by simp⟩
  | cons t0 rest ih =>
    intro closest hit
    by_cases h1 : t0.id = shooter.id
    · have hstep : scan_tanks shooter dir range dmg (t0 :: rest) closest hit
          = scan_tanks shooter dir range dmg rest closest hit := by
        rw [scan_tanks, if_pos h1]
      rcases ih closest hit with ⟨hout, hmin⟩ |
        ⟨target, hm, hq, hlt, hout, hmin⟩
      · left
        refine ⟨hstep.trans hout, ?_⟩
        intro t ht hq
        rcases List.mem_cons.mp ht with rfl | ht'
        · exact absurd h1 hq.1
        · exact hmin t ht' hq
      · right
        refine ⟨target, List.mem_cons_of_mem _ hm, hq, hlt,
          hstep.trans hout, ?_⟩
        intro t ht hq'
        rcases List.mem_cons.mp ht with rfl | ht'
        · exact absurd h1 hq'.1
        · exact hmin t ht' hq'
    · by_cases h2 : calculate_distance shooter.position t0.position > range
      · have hstep : scan_tanks shooter dir range dmg (t0 :: rest) closest hit
            = scan_tanks shooter dir range dmg rest closest hit := by
          simp only [scan_tanks]
          rw [if_neg h1, if_pos h2]
        rcases ih closest hit with ⟨hout, hmin⟩ |
          ⟨target, hm, hq, hlt, hout, hmin⟩
        · left
          refine ⟨hstep.trans hout, ?_⟩
          intro t ht hq
          rcases List.mem_cons.mp ht with rfl | ht'
          · exact absurd h2 hq.2.1
          · exact hmin t ht' hq
        · right
          refine ⟨target, List.mem_cons_of_mem _ hm, hq, hlt,
            hstep.trans hout, ?_⟩
          intro t ht hq'
          rcases List.mem_cons.mp ht with rfl | ht'
          · exact absurd h2 hq'.2.1
          · exact hmin t ht' hq'
      · by_cases h3 : |normalize_angle (degrees (atan2
            (t0.position.y - shooter.position.y)
            (t0.position.x - shooter.position.x)) - dir)| ≤ 5 ∧
            lt_closest (calculate_distance shooter.position t0.position)
              closest
        · have hstep : scan_tanks shooter dir range dmg (t0 :: rest)
              closest hit
              = scan_tanks shooter dir range dmg rest
                (some (calculate_distance shooter.position t0.position))
                (some (ProjectileHit.mk (some t0.id) none dmg
                  (some t0.position))) := by
            simp only [scan_tanks]
            rw [if_neg h1, if_neg h2, if_pos h3]
          have hq0 : tank_in_cone shooter dir range t0 := ⟨h1, h2, h3.1⟩
          rcases ih (some (calculate_distance shooter.position t0.position))
            (some (ProjectileHit.mk (some t0.id) none dmg
              (some t0.position))) with ⟨hout, hmin⟩ |
            ⟨target, hm, hq, hlt, hout, hmin⟩
          · right
            refine ⟨t0, List.mem_cons_self _ _, hq0, h3.2,
              hstep.trans hout, ?_⟩
            intro t ht hq'
            rcases List.mem_cons.mp ht with rfl | ht'
            · exact lt_irrefl _
            · exact hmin t ht' hq'
          · right
            have hlt0 : calculate_distance shooter.position target.position <
                calculate_distance shooter.position t0.position :=
              lt_closest_some.mp hlt
            refine ⟨target, List.mem_cons_of_mem _ hm, hq, ?_,
              hstep.trans hout, ?_⟩
            · cases closest with
              | none => exact trivial
              | some c =>
                have hc0 : calculate_distance shooter.position t0.position
                    < c := lt_closest_some.mp h3.2
                exact lt_closest_some.mpr (hlt0.trans hc0)
            · intro t ht hq'
              rcases List.mem_cons.mp ht with rfl | ht'
              · exact lt_asymm hlt0
              · exact hmin t ht' hq'
        · have hstep : scan_tanks shooter dir range dmg (t0 :: rest)
              closest hit
              = scan_tanks shooter dir range dmg rest closest hit := by
            simp only [scan_tanks]
            rw [if_neg h1, if_neg h2, if_neg h3]
          have hnl : tank_in_cone shooter dir range t0 →
              ¬ lt_closest (calculate_distance shooter.position t0.position)
                closest :=
            fun hq' hc => h3 ⟨hq'.2.2, hc⟩
          rcases ih closest hit with ⟨hout, hmin⟩ |
            ⟨target, hm, hq, hlt, hout, hmin⟩
          · left
            refine ⟨hstep.trans hout, ?_⟩
            intro t ht hq'
            rcases List.mem_cons.mp ht with rfl | ht'
            · exact hnl hq'
            · exact hmin t ht' hq'
          · right
            refine ⟨target, List.mem_cons_of_mem _ hm, hq, hlt,
              hstep.trans hout, ?_⟩
            intro t ht hq'
            rcases List.mem_cons.mp ht with rfl | ht'
            · cases closest with
              | none => exact absurd (lt_closest_none _) (hnl hq')
              | some c =>
                have h4 : ¬ (calculate_distance shooter.position t.position
                    < c) := fun hc => hnl hq' (lt_closest_some.mpr hc)
                have h5 : calculate_distance shooter.position target.position
                    < c := lt_closest_some.mp hlt
                exact fun hc => h4 (hc.trans h5)
            · exact hmin t ht' hq'

/-- Characterization of the obstacle loop: either no alive in-cone obstacle
is strictly nearer than the tank-loop result (the tank hit stands), or the
shot is pre-empted by the FIRST obstacle in list order that is alive, in
the cone and strictly nearer — every earlier in-cone obstacle fails the
strictly-nearer test — and a destructible one yields an obstacle hit, an
indestructible one an absorbed hit with no ids. -/
theorem scan_obstacles_spec (shooter : Tank) (dir range : ℝ)
    (closest : Option ℝ) (hit : Option ProjectileHit) (l : List Obstacle) :
    (scan_obstacles shooter dir range closest hit l = hit ∧
      ∀ o ∈ l, obstacle_in_cone shooter dir range o →
        ¬ lt_closest (calculate_distance shooter.position o.position)
          closest) ∨
    (∃ pre o post, l = pre ++ o :: post ∧
      obstacle_in_cone shooter dir range o ∧
      lt_closest (calculate_distance shooter.position o.position) closest ∧
      (∀ o' ∈ pre, obstacle_in_cone shooter dir range o' →
        ¬ lt_closest (calculate_distance shooter.position o'.position)
          closest) ∧
      ((o.obstacle_type.isDestructible = true ∧
        scan_obstacles shooter dir range closest hit l =
          some (ProjectileHit.mk none (some o.id) 0 (some o.position))) ∨
       (o.obstacle_type.isDestructible = false ∧
        scan_obstacles shooter dir range closest hit l =
          some (ProjectileHit.mk none none 0 (some o.position))))) := by
  induction l with
  | nil =>
    left
    exact ⟨rfl, by simp⟩
  | cons o0 rest ih =>
    by_cases h1 : o0.is_alive = true
    · by_cases h2 : calculate_distance shooter.position o0.position > range
      · have hstep : scan_obstacles shooter dir range closest hit (o0 :: rest)
            = scan_obstacles shooter dir range closest hit rest := by
          simp only [scan_obstacles]
          rw [if_neg (by simp [h1]), if_pos h2]
        rcases ih with ⟨hout, hmin⟩ |
          ⟨pre, o, post, hsplit, hq, hlt, hpre, hcase⟩
        · left
          refine ⟨hstep.trans hout, ?_⟩
          intro o ho hq
          rcases List.mem_cons.mp ho with rfl | ho'
          · exact absurd h2 hq.2.1
          · exact hmin o ho' hq
        · right
          refine ⟨o0 :: pre, o, post, by rw [hsplit, List.cons_append], hq, hlt, ?_, ?_⟩
          · intro o' ho' hq'
            rcases List.mem_cons.mp ho' with rfl | ho''
            · exact absurd h2 hq'.2.1
            · exact hpre o' ho'' hq'
          · rcases hcase with ⟨hd, hout⟩ | ⟨hd, hout⟩
            · exact Or.inl ⟨hd, hstep.trans hout⟩
            · exact Or.inr ⟨hd, hstep.trans hout⟩
      · by_cases h3 : |normalize_angle (degrees (atan2
            (o0.position.y - shooter.position.y)
            (o0.position.x - shooter.position.x)) - dir)| ≤ 5 ∧
            lt_closest (calculate_distance shooter.position o0.position)
              closest
        · right
          refine ⟨[], o0, rest, rfl, ⟨h1, h2, h3.1⟩, h3.2, by simp, ?_⟩
          by_cases hd : o0.obstacle_type.isDestructible = true
          · left
            refine ⟨hd, ?_⟩
            simp only [scan_obstacles]
            rw [if_neg (by simp [h1]), if_neg h2, if_pos h3, if_pos hd]
          · right
            refine ⟨Bool.not_eq_true _ ▸ eq_false_of_ne_true hd, ?_⟩
            simp only [scan_obstacles]
            rw [if_neg (by simp [h1]), if_neg h2, if_pos h3, if_neg hd]
        · have hstep : scan_obstacles shooter dir range closest hit
              (o0 :: rest)
              = scan_obstacles shooter dir range closest hit rest := by
            simp only [scan_obstacles]
            rw [if_neg (by simp [h1]), if_neg h2, if_neg h3]
          have hnl : obstacle_in_cone shooter dir range o0 →
              ¬ lt_closest (calculate_distance shooter.position o0.position)
                closest :=
            fun hq hc => h3 ⟨hq.2.2, hc⟩
          rcases ih with ⟨hout, hmin⟩ |
            ⟨pre, o, post, hsplit, hq, hlt, hpre, hcase⟩
          · left
            refine ⟨hstep.trans hout, ?_⟩
            intro o ho hq
            rcases List.mem_cons.mp ho with rfl | ho'
            · exact hnl hq
            · exact hmin o ho' hq
          · right
            refine ⟨o0 :: pre, o, post, by rw [hsplit, List.cons_append], hq, hlt, ?_, ?_⟩
            · intro o' ho' hq'
              rcases List.mem_cons.mp ho' with rfl | ho''
              · exact hnl hq'
              · exact hpre o' ho'' hq'
            · rcases hcase with ⟨hd, hout⟩ | ⟨hd, hout⟩
              · exact Or.inl ⟨hd, hstep.trans hout⟩
              · exact Or.inr ⟨hd, hstep.trans hout⟩
    · have hstep : scan_obstacles shooter dir range closest hit (o0 :: rest)
          = scan_obstacles shooter dir range closest hit rest := by
        simp only [scan_obstacles]
        rw [if_pos (by simp [h1])]
      rcases ih with ⟨hout, hmin⟩ |
        ⟨pre, o, post, hsplit, hq, hlt, hpre, hcase⟩
      · left
        refine ⟨hstep.trans hout, ?_⟩
        intro o ho hq
        rcases List.mem_cons.mp ho with rfl | ho'
        · exact absurd hq.1 h1
        · exact hmin o ho' hq
      · right
        refine ⟨o0 :: pre, o, post, by rw [hsplit, List.cons_append], hq, hlt, ?_, ?_⟩
        · intro o' ho' hq'
          rcases List.mem_cons.mp ho' with rfl | ho''
          · exact absurd hq'.1 h1
          · exact hpre o' ho'' hq'
        · rcases hcase with ⟨hd, hout⟩ | ⟨hd, hout⟩
          · exact Or.inl ⟨hd, hstep.trans hout⟩
          · exact Or.inr ⟨hd, hstep.trans hout⟩

/-- C3 (amended): when `fire_projectile` produces a hit, the tank hit (if
any) is selected among ALL other tanks — live or dead, the loop never
checks `hp` — within the loaded ammo's range and within 5 degrees of the
shot direction, nearest by distance, with no alive in-cone in-range
obstacle strictly nearer than it; when instead an obstacle takes the shot,
that obstacle is the FIRST in obstacle-list order (not the nearest) that is
alive, within range, within 5 degrees and strictly nearer than every
in-cone in-range tank — every earlier in-cone obstacle has some in-cone
tank at most as near — and a destructible one is destroyed (an obstacle-id
hit) while an indestructible one absorbs the shot (a hit with no ids and
no further effect). -/
theorem fire_projectile_selection (tank : Tank) (all_tanks : List Tank)
    (obstacles : List Obstacle) (current_time : ℝ)
    (last_shot_time : List (String × ℝ)) (tank1 : Tank)
    (ls1 : List (String × ℝ)) (h : ProjectileHit) (a : AmmoType)
    (hl : tank.ammo_loaded = some a)
    (hfire : fire_projectile tank all_tanks obstacles current_time
      last_shot_time = some (tank1, ls1, some h)) :
    (∀ tid, h.hit_tank_id = some tid →
      ∃ target ∈ all_tanks, target.id = tid ∧
        tank_in_cone tank1 (tank.heading + tank.barrel_angle) a.range
          target ∧
        (∀ t ∈ all_tanks,
          tank_in_cone tank1 (tank.heading + tank.barrel_angle) a.range t →
          calculate_distance tank1.position target.position ≤
            calculate_distance tank1.position t.position) ∧
        (∀ o ∈ obstacles,
          obstacle_in_cone tank1 (tank.heading + tank.barrel_angle)
            a.range o →
          calculate_distance tank1.position target.position ≤
            calculate_distance tank1.position o.position)) ∧
    (∀ oid, h.hit_obstacle_id = some oid →
      ∃ pre o post, obstacles = pre ++ o :: post ∧ o.id = oid ∧
        obstacle_in_cone tank1 (tank.heading + tank.barrel_angle) a.range o ∧
        o.obstacle_type.isDestructible = true ∧
        (∀ t ∈ all_tanks,
          tank_in_cone tank1 (tank.heading + tank.barrel_angle) a.range t →
          calculate_distance tank1.position o.position <
            calculate_distance tank1.position t.position) ∧
        (∀ o' ∈ pre,
          obstacle_in_cone tank1 (tank.heading + tank.barrel_angle)
            a.range o' →
          ∃ t ∈ all_tanks,
            tank_in_cone tank1 (tank.heading + tank.barrel_angle) a.range t ∧
            calculate_distance tank1.position t.position ≤
              calculate_distance tank1.position o'.position)) ∧
    (h.hit_tank_id = none → h.hit_obstacle_id = none →
      ∃ pre o post, obstacles = pre ++ o :: post ∧
        obstacle_in_cone tank1 (tank.heading + tank.barrel_angle) a.range o ∧
        o.obstacle_type.isDestructible = false ∧
        (∀ t ∈ all_tanks,
          tank_in_cone tank1 (tank.heading + tank.barrel_angle) a.range t →
          calculate_distance tank1.position o.position <
            calculate_distance tank1.position t.position) ∧
        (∀ o' ∈ pre,
          obstacle_in_cone tank1 (tank.heading + tank.barrel_angle)
            a.range o' →
          ∃ t ∈ all_tanks,
            tank_in_cone tank1 (tank.heading + tank.barrel_angle) a.range t ∧
            calculate_distance tank1.position t.position ≤
              calculate_distance tank1.position o'.position)) := by
  by_cases hcf : can_fire tank last_shot_time current_time
  · unfold fire_projectile at hfire
    rw [if_neg (not_not_intro hcf)] at hfire
    simp only [hl] at hfire
    rw [Option.some.injEq, Prod.mk.injEq] at hfire
    obtain ⟨ht1, hrest⟩ := hfire
    rw [Prod.mk.injEq] at hrest
    obtain ⟨-, hscan⟩ := hrest
    rw [ht1] at hscan
    rcases scan_tanks_spec tank1 (tank.heading + tank.barrel_angle) a.range
      (if tank.is_overcharged then |a.value| * 2 else |a.value|)
      all_tanks none none with ⟨hout, hmint⟩ |
      ⟨target, hm, hq, -, hout, hmin⟩
    · rw [hout] at hscan
      have hnotank : ∀ t ∈ all_tanks,
          tank_in_cone tank1 (tank.heading + tank.barrel_angle) a.range t →
          False :=
        fun t ht hqt => hmint t ht hqt (lt_closest_none _)
      rcases scan_obstacles_spec tank1 (tank.heading + tank.barrel_angle)
        a.range none none obstacles with ⟨hout2, -⟩ |
        ⟨pre, o, post, hsplit, hqo, -, hpre, hcase⟩
      · rw [hout2] at hscan
        exact Option.noConfusion hscan
      · have hprev : ∀ o' ∈ pre,
            obstacle_in_cone tank1 (tank.heading + tank.barrel_angle)
              a.range o' → False :=
          fun o' ho' hq' => hpre o' ho' hq' (lt_closest_none _)
        rcases hcase with ⟨hd, hout2⟩ | ⟨hd, hout2⟩
        · rw [hout2, Option.some.injEq] at hscan
          subst hscan
          refine ⟨?_, ?_, ?_⟩
          · intro tid htid
            exact Option.noConfusion htid
          · intro oid hoid
            rw [Option.some.injEq] at hoid
            exact ⟨pre, o, post, hsplit, hoid, hqo, hd,
              fun t ht hqt => (hnotank t ht hqt).elim,
              fun o' ho' hq' => (hprev o' ho' hq').elim⟩
          · intro _ hobs
            exact Option.noConfusion hobs
        · rw [hout2, Option.some.injEq] at hscan
          subst hscan
          refine ⟨?_, ?_, ?_⟩
          · intro tid htid
            exact Option.noConfusion htid
          · intro oid hoid
            exact Option.noConfusion hoid
          · intro _ _
            exact ⟨pre, o, post, hsplit, hqo, hd,
              fun t ht hqt => (hnotank t ht hqt).elim,
              fun o' ho' hq' => (hprev o' ho' hq').elim⟩
    · rw [hout] at hscan
      rcases scan_obstacles_spec tank1 (tank.heading + tank.barrel_angle)
        a.range (some (calculate_distance tank1.position target.position))
        (some (ProjectileHit.mk (some target.id) none
          (if tank.is_overcharged then |a.value| * 2 else |a.value|)
          (some target.position))) obstacles with ⟨hout2, hmino⟩ |
        ⟨pre, o, post, hsplit, hqo, hlto, hpre, hcase⟩
      · rw [hout2, Option.some.injEq] at hscan
        subst hscan
        refine ⟨?_, ?_, ?_⟩
        · intro tid htid
          rw [Option.some.injEq] at htid
          refine ⟨target, hm, htid, hq, ?_, ?_⟩
          · intro t ht hqt
            exact not_lt.mp (hmin t ht hqt)
          · intro o ho hqo
            have := hmino o ho hqo
            rw [lt_closest_some] at this
            exact not_lt.mp this
        · intro oid hoid
          exact Option.noConfusion hoid
        · intro hnone
          exact Option.noConfusion hnone
      · have hlt' : calculate_distance tank1.position o.position <
            calculate_distance tank1.position target.position :=
          lt_closest_some.mp hlto
        have hotank : ∀ t ∈ all_tanks,
            tank_in_cone tank1 (tank.heading + tank.barrel_angle) a.range t →
            calculate_distance tank1.position o.position <
              calculate_distance tank1.position t.position :=
          fun t ht hqt => hlt'.trans_le (not_lt.mp (hmin t ht hqt))
        have hprev : ∀ o' ∈ pre,
            obstacle_in_cone tank1 (tank.heading + tank.barrel_angle)
              a.range o' →
            ∃ t ∈ all_tanks,
              tank_in_cone tank1 (tank.heading + tank.barrel_angle)
                a.range t ∧
              calculate_distance tank1.position t.position ≤
                calculate_distance tank1.position o'.position := by
          intro o' ho' hq'
          refine ⟨target, hm, hq, ?_⟩
          have := hpre o' ho' hq'
          rw [lt_closest_some] at this
          exact not_lt.mp this
        rcases hcase with ⟨hd, hout2⟩ | ⟨hd, hout2⟩
        · rw [hout2, Option.some.injEq] at hscan
          subst hscan
          refine ⟨?_, ?_, ?_⟩
          · intro tid htid
            exact Option.noConfusion htid
          · intro oid hoid
            rw [Option.some.injEq] at hoid
            exact ⟨pre, o, post, hsplit, hoid, hqo, hd, hotank, hprev⟩
          · intro _ hobs
            exact Option.noConfusion hobs
        · rw [hout2, Option.some.injEq] at hscan
          subst hscan
          refine ⟨?_, ?_, ?_⟩
          · intro tid htid
            exact Option.noConfusion htid
          · intro oid hoid
            exact Option.noConfusion hoid
          · intro _ _
            exact ⟨pre, o, post, hsplit, hqo, hd, hotank, hprev⟩
  · unfold fire_projectile at hfire
    rw [if_pos hcf] at hfire
    exact Option.noConfusion hfire

theorem atan2_zero_of_pos {x : ℝ} (hx : 0 < x) : atan2 0 x = 0 := by
  unfold atan2
  rw [if_pos hx]
  simp [Real.arctan_zero]

theorem degrees_zero : degrees 0 = 0 := by
  unfold degrees
  ring

theorem dist_axis (a b : ℝ) :
    calculate_distance (Position.mk a 0) (Position.mk b 0) = |b - a| := by
  unfold calculate_distance
  dsimp only
  rw [show (b - a) * (b - a) + ((0 : ℝ) - 0) * ((0 : ℝ) - 0) = (b - a) ^ 2
    by ring, Real.sqrt_sq_eq_abs]

/-- The shooter: at the origin, heading east, light ammo loaded (range 10). -/
noncomputable def shooter_tank : Tank :=
  Tank.mk "S" 1 "LightTank" 100 30 100 30 (Position.mk 0 0) 0 0 10 140 180
    10 40 false (some .light) (fun _ => 5) (fun _ => 15) (5, 5)

/-- A DEAD tank (hp 0) at (2, 0), directly on the shot line at distance 2. -/
noncomputable def dead_tank : Tank :=
  Tank.mk "D" 2 "LightTank" 0 0 100 30 (Position.mk 2 0) 0 0 10 140 180
    10 40 false none (fun _ => 0) (fun _ => 15) (5, 5)

/-- A live tank at (4, 0), directly on the shot line at distance 4. -/
noncomputable def live_tank : Tank :=
  Tank.mk "L" 2 "LightTank" 100 30 100 30 (Position.mk 4 0) 0 0 10 140 180
    10 40 false none (fun _ => 5) (fun _ => 15) (5, 5)

/-- The shooter after its shot: one light round spent. -/
noncomputable def shooter_after : Tank :=
  Tank.mk "S" 1 "LightTank" 100 30 100 30 (Position.mk 0 0) 0 0 10 140 180
    10 40 false (some .light)
    (fun a => if a = AmmoType.light then 4 else 5) (fun _ => 15) (5, 5)

/-- Concrete evaluation: the shot hits the dead tank "D" at distance 2,
not the live tank "L" at distance 4. -/
theorem fire_SDL_eval :
    ∃ t1, fire_projectile shooter_tank [shooter_tank, dead_tank, live_tank]
      [] 0 []
      = some (t1, [("S", 0)],
        some (ProjectileHit.mk (some "D") none 20 (some (Position.mk 2 0)))) := by
  refine ⟨shooter_after, ?_⟩
  norm_num [fire_projectile, can_fire, dict_get, scan_tanks, scan_obstacles,
    shooter_after,
    lt_closest, shooter_tank, dead_tank, live_tank, AmmoType.value,
    AmmoType.range, AmmoType.reloadTime, List.lookup, degrees_zero,
    (show calculate_distance (Position.mk (0 : ℝ) 0) (Position.mk 2 0) = 2
      from by rw [dist_axis]; norm_num),
    (show calculate_distance (Position.mk (0 : ℝ) 0) (Position.mk 4 0) = 4
      from by rw [dist_axis]; norm_num),
    (show atan2 (0 : ℝ) 2 = 0 from atan2_zero_of_pos (by norm_num)),
    (show atan2 (0 : ℝ) 4 = 0 from atan2_zero_of_pos (by norm_num)),
    (show normalize_angle (0 : ℝ) = 0 from
      normalize_angle_fix (by norm_num) (by norm_num)),
    (show ("D" : String) ≠ "S" from by decide),
    (show ("L" : String) ≠ "S" from by decide)]

/-- C3 counterexample: with a dead tank at distance 2 and a live tank at
distance 4, both exactly on the shot line and in range, the shot hits the
DEAD tank — the hit is not selected "among all other live tanks" as the
claim states, although the live tank qualifies. -/
theorem fire_projectile_hits_dead_tank :
    (∃ t1, fire_projectile shooter_tank
      [shooter_tank, dead_tank, live_tank] [] 0 []
      = some (t1, [("S", 0)],
        some (ProjectileHit.mk (some "D") none 20
          (some (Position.mk 2 0))))) ∧
    dead_tank.id = "D" ∧ dead_tank.hp ≤ 0 ∧
    live_tank.id = "L" ∧ 0 < live_tank.hp ∧
    tank_in_cone shooter_tank
      (shooter_tank.heading + shooter_tank.barrel_angle)
      AmmoType.light.range live_tank := by
  refine ⟨fire_SDL_eval, rfl, by norm_num [dead_tank], rfl,
    by norm_num [live_tank], ?_, ?_, ?_⟩
  · show ¬ live_tank.id = shooter_tank.id
    simp [live_tank, shooter_tank]
  · show ¬ calculate_distance shooter_tank.position live_tank.position >
      AmmoType.light.range
    norm_num [shooter_tank, live_tank, AmmoType.range,
      (show calculate_distance (Position.mk (0 : ℝ) 0) (Position.mk 4 0) = 4
        from by rw [dist_axis]; norm_num)]
  · norm_num [shooter_tank, live_tank, degrees_zero,
      (show atan2 (0 : ℝ) 4 = 0 from atan2_zero_of_pos (by norm_num)),
      (show normalize_angle (0 : ℝ) = 0 from
        normalize_angle_fix (by norm_num) (by norm_num))]

/-- C3 witness (amended claim): at the counterexample input, the amended
selection theorem applies and produces the target the hit names. -/
theorem fire_projectile_selection_witness :
    ∃ t1 hit, fire_projectile shooter_tank
        [shooter_tank, dead_tank, live_tank] [] 0 []
        = some (t1, [("S", 0)], some hit) ∧
      ∃ tid, hit.hit_tank_id = some tid ∧
      ∃ target ∈ [shooter_tank, dead_tank, live_tank], target.id = tid ∧
        tank_in_cone t1 (shooter_tank.heading + shooter_tank.barrel_angle)
          AmmoType.light.range target := by
  obtain ⟨t1, hfire⟩ := fire_SDL_eval
  have hsel := fire_projectile_selection shooter_tank
    [shooter_tank, dead_tank, live_tank] [] 0 [] t1 [("S", 0)] _
    AmmoType.light rfl hfire
  obtain ⟨target, hm, hid, hq, -, -⟩ := hsel.1 "D" rfl
  exact ⟨t1, _, hfire, "D", rfl, target, hm, hid, hq⟩

/-! ## C9: kill credit and the last-attacker bookkeeping

Scenario: tanks "A", "B" both fire this tick; "A" (at (20, 0), heading
north) hits nothing, "B" (at the origin, heading east) hits "C" at (4, 0).
The actions dictionary iterates "A" before "B". -/

/-- Tank "A": fires north, nothing in its cone or range. -/
noncomputable def tank_A9 : Tank :=
  Tank.mk "A" 1 "LightTank" 100 30 100 30 (Position.mk 20 0) 90 0 10 140 180
    10 40 false (some .light) (fun _ => 5) (fun _ => 15) (5, 5)

/-- Tank "B": fires east, tank "C" is on its shot line at distance 4. -/
noncomputable def tank_B9 : Tank :=
  Tank.mk "B" 1 "LightTank" 100 30 100 30 (Position.mk 0 0) 0 0 10 140 180
    10 40 false (some .light) (fun _ => 5) (fun _ => 15) (5, 5)

/-- Tank "C": the victim, no shield. -/
noncomputable def tank_C9 : Tank :=
  Tank.mk "C" 2 "LightTank" 100 0 100 30 (Position.mk 4 0) 0 0 10 140 180
    10 40 false none (fun _ => 0) (fun _ => 15) (5, 5)

/-- Both "A" and "B" request fire; the dict order lists "A" first. -/
noncomputable def actions9 : List (String × ActionCommand) :=
  [("A", ActionCommand.mk 0 0 0 true), ("B", ActionCommand.mk 0 0 0 true)]

/-- The tick state before the firing phase. -/
noncomputable def st9 : TickState :=
  TickState.mk [tank_A9, tank_B9, tank_C9] [] [] [] [] [] [] [] [] [] []

/-- Tank "A" after its (missed) shot: one light round spent. -/
noncomputable def tank_A9f : Tank :=
  Tank.mk "A" 1 "LightTank" 100 30 100 30 (Position.mk 20 0) 90 0 10 140 180
    10 40 false (some .light)
    (fun a => if a = AmmoType.light then 4 else 5) (fun _ => 15) (5, 5)

/-- Tank "B" after its shot: one light round spent. -/
noncomputable def tank_B9f : Tank :=
  Tank.mk "B" 1 "LightTank" 100 30 100 30 (Position.mk 0 0) 0 0 10 140 180
    10 40 false (some .light)
    (fun a => if a = AmmoType.light then 4 else 5) (fun _ => 15) (5, 5)

/-- Tank "C" after being hit by "B" for 20. -/
noncomputable def tank_C9f : Tank :=
  Tank.mk "C" 2 "LightTank" 80 0 100 30 (Position.mk 4 0) 0 0 10 140 180
    10 40 false none (fun _ => 0) (fun _ => 15) (5, 5)

/-- The hit "B" scores on "C". -/
noncomputable def hit_C9 : ProjectileHit :=
  ProjectileHit.mk (some "C") none 20 (some (Position.mk 4 0))

/-- C9 (code evaluated at the failing input): in the firing phase "A"'s
shot hits nothing and "B"'s shot is the one that damages "C" (its HP drops
100 → 80 during the phase), yet the game loop's scoring fragment walks the
actions dict, takes the FIRST entry with `should_fire` — "A" — and records
it as "C"'s last attacker, so the kill credit for "C" goes to "A". -/
theorem credit_goes_to_first_firer :
    fire_projectile tank_A9 [tank_A9, tank_B9, tank_C9] [] 0 [] =
      some (tank_A9f, [("A", 0)], none) ∧
    phase2_step actions9 0 (phase2_step actions9 0
        (phase2_step actions9 0 st9 "A") "B") "C" =
      TickState.mk [tank_A9f, tank_B9f, tank_C9f] [] []
        [("B", 0), ("A", 0)] [] [] [] [hit_C9] [] [] [] ∧
    first_firing actions9 = some "A" ∧
    update_last_attacker [hit_C9] actions9 [] = [("C", "A")] ∧
    kill_credit [("C", "A")] "C" = some "A" := by
  refine ⟨?_, ?_, ?_, ?_, ?_⟩
  · norm_num [fire_projectile, can_fire, dict_get, scan_tanks,
      scan_obstacles, lt_closest, tank_A9, tank_B9, tank_C9, tank_A9f,
      AmmoType.value, AmmoType.range, AmmoType.reloadTime, List.lookup,
      degrees_zero,
      (show calculate_distance (Position.mk (20 : ℝ) 0) (Position.mk 0 0)
        = 20 from by rw [dist_axis]; norm_num),
      (show calculate_distance (Position.mk (20 : ℝ) 0) (Position.mk 4 0)
        = 16 from by rw [dist_axis]; norm_num),
      (show ("B" : String) ≠ "A" from by decide),
      (show ("C" : String) ≠ "A" from by decide)]
  · norm_num [phase2_step, fire_projectile, can_fire, dict_get, scan_tanks,
      scan_obstacles, lt_closest, apply_hit_to_tank, apply_hit_to_obstacle,
      apply_damage, find_tank, update_tank, List.find?, List.lookup,
      st9, actions9, tank_A9, tank_B9, tank_C9, tank_A9f, tank_B9f,
      tank_C9f, hit_C9, AmmoType.value, AmmoType.range, AmmoType.reloadTime,
      degrees_zero, beq_iff_eq,
      (show calculate_distance (Position.mk (20 : ℝ) 0) (Position.mk 0 0)
        = 20 from by rw [dist_axis]; norm_num),
      (show calculate_distance (Position.mk (20 : ℝ) 0) (Position.mk 4 0)
        = 16 from by rw [dist_axis]; norm_num),
      (show calculate_distance (Position.mk (0 : ℝ) 0) (Position.mk 20 0)
        = 20 from by rw [dist_axis]; norm_num),
      (show calculate_distance (Position.mk (0 : ℝ) 0) (Position.mk 4 0)
        = 4 from by rw [dist_axis]; norm_num),
      (show atan2 (0 : ℝ) 4 = 0 from atan2_zero_of_pos (by norm_num)),
      (show normalize_angle (0 : ℝ) = 0 from
        normalize_angle_fix (by norm_num) (by norm_num)),
      (show ("A" : String) ≠ "B" from by decide),
      (show ("B" : String) ≠ "A" from by decide),
      (show ("C" : String) ≠ "A" from by decide),
      (show ("C" : String) ≠ "B" from by decide),
      (show ("A" : String) ≠ "C" from by decide),
      (show ("B" : String) ≠ "C" from by decide),
      (show (("A" : String) == "B") = false from by decide),
      (show (("B" : String) == "A") = false from by decide),
      (show (("C" : String) == "A") = false from by decide),
      (show (("C" : String) == "B") = false from by decide),
      (show (("A" : String) == "C") = false from by decide),
      (show (("B" : String) == "C") = false from by decide),
      (show (("A" : String) == "A") = true from by decide),
      (show (("B" : String) == "B") = true from by decide),
      (show (("C" : String) == "C") = true from by decide)]
  · rfl
  · norm_num [update_last_attacker, first_firing, actions9, hit_C9]
  · rfl

/-! ## C10: dead tanks are skipped by every phase and stay dead -/

/-- The tank object stored under an id is dead (vacuously true if the id is
absent). -/
def dead_at (tanks : List Tank) (id : String) : Prop :=
  ∀ t, find_tank tanks id = some t → t.hp ≤ 0

/-- Writing `t` back preserves per-id deadness provided `t` itself is dead
whenever it lands on the dead id. -/
theorem dead_at_update_master {tanks : List Tank} {id' : String} (t : Tank)
    (h : dead_at tanks id') (hsafe : t.id = id' → t.hp ≤ 0) :
    dead_at (update_tank tanks t) id' := by
  intro v hv
  rw [find_tank_update] at hv
  cases hu : find_tank tanks id' with
  | none => rw [hu] at hv; exact Option.noConfusion hv
  | some u =>
    rw [hu] at hv
    simp only [Option.map] at hv
    injection hv with hv
    by_cases hid : u.id = t.id
    · rw [if_pos hid] at hv
      subst hv
      exact hsafe (hid.symm.trans (find_tank_id hu))
    · rw [if_neg hid] at hv
      subst hv
      exact h u hu

theorem rotate_heading_id (t : Tank) (a dt : ℝ) :
    (rotate_heading t a dt).id = t.id := rfl

theorem rotate_heading_hp (t : Tank) (a dt : ℝ) :
    (rotate_heading t a dt).hp = t.hp := rfl

theorem rotate_barrel_id (t : Tank) (a dt : ℝ) :
    (rotate_barrel t a dt).id = t.id := rfl

theorem rotate_barrel_hp (t : Tank) (a dt : ℝ) :
    (rotate_barrel t a dt).hp = t.hp := rfl

theorem apply_powerup_id (t : Tank) (p : PowerUpData) :
    (apply_powerup t p).id = t.id := by
  unfold apply_powerup
  split
  · rfl
  · rfl
  · rfl
  · split
    · rfl
    · rfl

theorem apply_hit_to_obstacle_tanks (st : TickState) (h : ProjectileHit) :
    (apply_hit_to_obstacle st h).tanks = st.tanks := by
  unfold apply_hit_to_obstacle
  split
  · rfl
  · split
    · rfl
    · rfl

/-- A successful `fire_projectile` changes neither the shooter's id nor its
HP. -/
theorem fire_projectile_shooter {tank : Tank} {all_tanks : List Tank}
    {obstacles : List Obstacle} {ct : ℝ} {ls : List (String × ℝ)}
    {t1 : Tank} {ls1 : List (String × ℝ)} {ho : Option ProjectileHit}
    (hf : fire_projectile tank all_tanks obstacles ct ls =
      some (t1, ls1, ho)) :
    t1.id = tank.id ∧ t1.hp = tank.hp := by
  by_cases hcf : can_fire tank ls ct
  · unfold fire_projectile at hf
    rw [if_neg (not_not_intro hcf)] at hf
    cases hl : tank.ammo_loaded with
    | none => rw [hl] at hf; exact Option.noConfusion hf
    | some a =>
      simp only [hl] at hf
      rw [Option.some.injEq, Prod.mk.injEq] at hf
      obtain ⟨ht1, -⟩ := hf
      subst ht1
      cases hov : tank.is_overcharged <;> simp [hov]
  · unfold fire_projectile at hf
    rw [if_pos hcf] at hf
    exact Option.noConfusion hf

/-- Any hit produced by `fire_projectile` deals non-negative damage. -/
theorem fire_projectile_damage_nonneg {tank : Tank} {all_tanks : List Tank}
    {obstacles : List Obstacle} {ct : ℝ} {ls : List (String × ℝ)}
    {t1 : Tank} {ls1 : List (String × ℝ)} {h : ProjectileHit}
    (hf : fire_projectile tank all_tanks obstacles ct ls =
      some (t1, ls1, some h)) :
    0 ≤ h.damage_dealt := by
  by_cases hcf : can_fire tank ls ct
  · unfold fire_projectile at hf
    rw [if_neg (not_not_intro hcf)] at hf
    cases hl : tank.ammo_loaded with
    | none => rw [hl] at hf; exact Option.noConfusion hf
    | some a =>
      simp only [hl] at hf
      rw [Option.some.injEq, Prod.mk.injEq] at hf
      obtain ⟨-, hrest⟩ := hf
      rw [Prod.mk.injEq] at hrest
      obtain ⟨-, hscan⟩ := hrest
      have hdmg : (0 : ℤ) ≤
          (if tank.is_overcharged then |a.value| * 2 else |a.value|) := by
        split <;> positivity
      rcases scan_tanks_spec _ _ a.range
        (if tank.is_overcharged then |a.value| * 2 else |a.value|)
        all_tanks none none with ⟨hout, -⟩ | ⟨target, -, -, -, hout, -⟩ <;>
        rw [hout] at hscan <;>
        rcases scan_obstacles_spec _ _ a.range _ _ obstacles with
          ⟨hout2, -⟩ | ⟨pre, o, post, -, -, -, -, ⟨-, hout2⟩ | ⟨-, hout2⟩⟩ <;>
        rw [hout2] at hscan
      · exact Option.noConfusion hscan
      · rw [Option.some.injEq] at hscan
        subst hscan
        norm_num
      · rw [Option.some.injEq] at hscan
        subst hscan
        norm_num
      · rw [Option.some.injEq] at hscan
        subst hscan
        exact hdmg
      · rw [Option.some.injEq] at hscan
        subst hscan
        norm_num
      · rw [Option.some.injEq] at hscan
        subst hscan
        norm_num
  · unfold fire_projectile at hf
    rw [if_pos hcf] at hf
    exact Option.noConfusion hf

theorem find_tank_of_mem_nodup {tanks : List Tank}
    (hnd : (tanks.map Tank.id).Nodup) {x : Tank} (hx : x ∈ tanks) :
    find_tank tanks x.id = some x := by
  induction tanks with
  | nil => exact absurd hx (List.not_mem_nil x)
  | cons a rest ih =>
    rcases List.mem_cons.mp hx with rfl | hx'
    · unfold find_tank
      simp [List.find?]
    · have hnd' := (List.nodup_cons.mp hnd)
      have hne : ¬ (a.id == x.id) = true := by
        intro hc
        exact hnd'.1 ((beq_iff_eq.mp hc) ▸ List.mem_map_of_mem Tank.id hx')
      unfold find_tank at *
      simp only [List.find?]
      rw [Bool.of_not_eq_true hne]
      exact ih hnd'.2 hx'

theorem update_tank_map_id (tanks : List Tank) (t : Tank) :
    (update_tank tanks t).map Tank.id = tanks.map Tank.id := by
  unfold update_tank
  rw [List.map_map]
  apply List.map_congr_left
  intro u _
  by_cases h : u.id = t.id
  · simp [h]
  · simp [h]

theorem mem_update_tank_of_ne {tanks : List Tank} {u t : Tank}
    (hu : u ∈ tanks) (hne : ¬ u.id = t.id) : u ∈ update_tank tanks t := by
  unfold update_tank
  exact List.mem_map.mpr ⟨u, hu, by simp [hne]⟩

theorem find_tank_collision_mem {tank : Tank} {l : List Tank} {o : Tank}
    (h : find_tank_collision tank l = some o) :
    o ∈ l ∧ ¬ o.id = tank.id := by
  induction l with
  | nil => exact Option.noConfusion h
  | cons a rest ih =>
    unfold find_tank_collision at h
    split_ifs at h with hc
    · injection h with h
      subst h
      exact ⟨List.mem_cons_self _ _, fun he => hc.1 he.symm⟩
    · have := ih h
      exact ⟨List.mem_cons_of_mem _ this.1, this.2⟩

set_option linter.unusedTactic false in
/-- The tank and other-tank components produced by `check_all_collisions`:
the examined tank keeps its id and HP (only its position may be reverted),
and the optional other tank is a position-rewrite of a member of the world
list with a different id. -/
theorem check_all_collisions_parts (tank : Tank) (prev : Position)
    (all_tanks : List Tank) (obstacles : List Obstacle) (ms : ℤ × ℤ)
    (moving : List String) :
    (check_all_collisions tank prev all_tanks obstacles ms moving).2.1.id
      = tank.id ∧
    (check_all_collisions tank prev all_tanks obstacles ms moving).2.1.hp
      = tank.hp ∧
    (∀ o', (check_all_collisions tank prev all_tanks obstacles ms
        moving).2.2 = some o' →
      ∃ other ∈ all_tanks, ¬ other.id = tank.id ∧ o'.id = other.id ∧
        o'.hp = other.hp) := by
  unfold check_all_collisions
  split_ifs with hb
  · exact ⟨rfl, rfl, fun o' ho' => Option.noConfusion ho'⟩
  · split
    · rename_i other hftc
      obtain ⟨hmem, hne⟩ := find_tank_collision_mem hftc
      have hres : ∀ ct,
          (resolve_collision tank prev ct (some other) none).2.1.id
            = tank.id ∧
          (resolve_collision tank prev ct (some other) none).2.1.hp
            = tank.hp ∧
          ∀ o', (resolve_collision tank prev ct (some other) none).2.2
              = some o' →
            o'.id = other.id ∧ o'.hp = other.hp := by
        intro ct
        cases ct <;> refine ⟨rfl, rfl, ?_⟩ <;> intro o' ho' <;>
          (try simp only [Option.map] at ho') <;> injection ho' with ho' <;>
          subst ho' <;> exact ⟨rfl, rfl⟩
      exact ⟨(hres _).1, (hres _).2.1, fun o' ho' =>
        ⟨other, hmem, hne, (hres _).2.2 o' ho'⟩⟩
    · split
      · rename_i obstacle hobs
        have hres : ∀ ct,
            (resolve_collision tank prev ct none (some obstacle)).2.1.id
              = tank.id ∧
            (resolve_collision tank prev ct none (some obstacle)).2.1.hp
              = tank.hp ∧
            (resolve_collision tank prev ct none (some obstacle)).2.2
              = none := by
          intro ct
          cases ct <;> exact ⟨rfl, rfl, rfl⟩
        refine ⟨(hres _).1, (hres _).2.1, ?_⟩
        intro o' ho'
        rw [(hres _).2.2] at ho'
        exact Option.noConfusion ho'
      · exact ⟨rfl, rfl, fun o' ho' => Option.noConfusion ho'⟩

theorem phase1_dead_at (actions : List (String × ActionCommand)) (dt : ℝ)
    (st : TickState) (id id' : String) (h : dead_at st.tanks id') :
    dead_at (phase1_step actions dt st id).tanks id' := by
  unfold phase1_step
  split
  · exact h
  · rename_i tank hfind
    split_ifs with hdead
    · exact h
    · split
      · exact h
      · rename_i action hact
        dsimp only
        apply dead_at_update_master _ h
        intro hid
        exfalso
        apply hdead
        apply h tank
        have h2 : id' = tank.id := hid.symm
        rw [h2, find_tank_id hfind]
        exact hfind

theorem phase5_dead_at (st : TickState) (id id' : String)
    (h : dead_at st.tanks id') :
    dead_at (phase5_step st id).tanks id' := by
  unfold phase5_step
  split
  · exact h
  · rename_i tank hfind
    split_ifs with hdead
    · exact h
    · split
      · exact h
      · rename_i p hp
        dsimp only
        apply dead_at_update_master _ h
        intro hid
        exfalso
        apply hdead
        apply h tank
        have h2 : id' = tank.id := by
          rw [← apply_powerup_id tank p]
          exact hid.symm
        rw [h2, find_tank_id hfind]
        exact hfind

theorem phase3_dead_at (actions : List (String × ActionCommand))
    (terrains : List Terrain) (dt : ℝ) (st : TickState) (id id' : String)
    (h : dead_at st.tanks id') :
    dead_at (phase3_step actions terrains dt st id).tanks id' := by
  unfold phase3_step
  split
  · exact h
  · rename_i tank hfind
    split_ifs with hdead
    · exact h
    · split
      · exact h
      · rename_i action hact
        split_ifs with hzero
        · exact h
        · dsimp only
          have hbase : dead_at (update_tank st.tanks
              { tank with position :=
                (move_tank tank action.move_speed terrains dt).1 }) id' := by
            apply dead_at_update_master _ h
            intro hid
            exfalso
            apply hdead
            apply h tank
            have h2 : id' = tank.id := hid.symm
            rw [h2, find_tank_id hfind]
            exact hfind
          have hfind1 : find_tank (update_tank st.tanks
              { tank with position :=
                (move_tank tank action.move_speed terrains dt).1 }) id =
              some { tank with position :=
                (move_tank tank action.move_speed terrains dt).1 } := by
            rw [find_tank_update, hfind]
            simp only [Option.map]
            simp
          have hstep2 : dead_at (update_tank (update_tank st.tanks
              { tank with position :=
                (move_tank tank action.move_speed terrains dt).1 })
              (apply_damage
                { tank with position :=
                  (move_tank tank action.move_speed terrains dt).1 }
                (move_tank tank action.move_speed terrains dt).2).1) id' := by
            apply dead_at_update_master _ hbase
            intro hid
            exfalso
            apply hdead
            have h2 : id' = tank.id :=
              hid.symm.trans (apply_damage_id _ _)
            have h3 := hbase _
              (by rw [show id' = id from h2.trans (find_tank_id hfind)]
                  exact hfind1)
            exact h3
          split_ifs <;> dsimp only <;> first | exact hstep2 | exact hbase

theorem phase2_dead_at (actions : List (String × ActionCommand)) (ct : ℝ)
    (st : TickState) (id id' : String) (h : dead_at st.tanks id') :
    dead_at (phase2_step actions ct st id).tanks id' := by
  unfold phase2_step
  split
  · exact h
  · rename_i tank hfind
    split_ifs with hdead
    · exact h
    · split
      · exact h
      · rename_i action hact
        split_ifs with hfire
        case neg => exact h
        · split
          · exact h
          · rename_i fired hfp
            obtain ⟨t1, ls1, ho⟩ := fired
            dsimp only
            have hsid := fire_projectile_shooter hfp
            have h1 : dead_at (update_tank st.tanks t1) id' := by
              apply dead_at_update_master _ h
              intro hid
              exfalso
              apply hdead
              apply h tank
              have h2 : id' = tank.id := hid.symm.trans hsid.1
              rw [show id' = id from h2.trans (find_tank_id hfind)]
              exact hfind
            split
            · exact h1
            · rename_i hit
              rw [apply_hit_to_obstacle_tanks]
              have hdmg : 0 ≤ hit.damage_dealt :=
                fire_projectile_damage_nonneg hfp
              unfold apply_hit_to_tank
              split
              · exact h1
              · rename_i tid htid
                split
                · exact h1
                · rename_i target htarget
                  dsimp only
                  have h2 : dead_at (update_tank (update_tank st.tanks t1)
                      (apply_damage target hit.damage_dealt).1) id' := by
                    apply dead_at_update_master _ h1
                    intro hid
                    have h3 : id' = target.id :=
                      hid.symm.trans (apply_damage_id _ _)
                    have h4 : target.id = tid := find_tank_id htarget
                    have h5 : find_tank (update_tank st.tanks t1) id' =
                        some target := by
                      rw [show id' = tid from h3.trans h4]
                      exact htarget
                    have h6 := h1 target h5
                    exact le_trans (apply_damage_hp_mono target _ hdmg) h6
                  split_ifs <;> dsimp only <;> exact h2

/-- Writing back any tank that lands on the examined (alive) id preserves
per-id deadness: the dead id cannot be the examined id. -/
theorem dead_at_update_alive {tanks : List Tank} {id id' : String}
    {tank t : Tank} (hfind : find_tank tanks id = some tank)
    (hdead : ¬ tank.hp ≤ 0) (h : dead_at tanks id')
    (hid : t.id = tank.id) : dead_at (update_tank tanks t) id' := by
  apply dead_at_update_master _ h
  intro hid'
  exfalso
  apply hdead
  apply h tank
  rw [show id' = id from (hid'.symm.trans hid).trans (find_tank_id hfind)]
  exact hfind

theorem phase4_dead_at (ms : ℤ × ℤ) (st : TickState) (id id' : String)
    (hnd : (st.tanks.map Tank.id).Nodup) (h : dead_at st.tanks id') :
    dead_at (phase4_step ms st id).tanks id' := by
  unfold phase4_step
  split
  · exact h
  · rename_i tank hfind
    split_ifs with hdead hmov
    · exact h
    case neg => exact h
    · dsimp only
      set R := check_all_collisions tank
        ((st.previous_positions.lookup id).getD tank.position) st.tanks
        st.obstacles ms st.moving_tanks with hR
      obtain ⟨hrid, hrhp, hother⟩ := check_all_collisions_parts tank
        ((st.previous_positions.lookup id).getD tank.position) st.tanks
        st.obstacles ms st.moving_tanks
      rw [← hR] at hrid hrhp hother
      have hbase1 : dead_at (update_tank st.tanks R.2.1) id' :=
        dead_at_update_alive hfind hdead h hrid
      cases hro : R.2.2 with
      | none =>
        dsimp only
        have hdmg : dead_at (update_tank (update_tank st.tanks R.2.1)
            (apply_damage R.2.1 R.1.damage_to_tank1).1) id' := by
          apply dead_at_update_master _ hbase1
          intro hid
          exfalso
          apply hdead
          apply h tank
          rw [show id' = id from
            ((hid.symm.trans (apply_damage_id _ _)).trans hrid).trans
              (find_tank_id hfind)]
          exact hfind
        split_ifs <;> repeat first
          | exact hbase1
          | exact hdmg
          | split
          | dsimp only
      | some other =>
        dsimp only
        obtain ⟨ot, hmem, hne, hoid, hohp⟩ := hother other hro
        have hbase : dead_at (update_tank (update_tank st.tanks R.2.1)
            other) id' := by
          apply dead_at_update_master _ hbase1
          intro hid
          rw [hohp]
          apply h ot
          rw [show id' = ot.id from hid.symm.trans hoid]
          exact find_tank_of_mem_nodup hnd hmem
        have hdmg : dead_at (update_tank (update_tank (update_tank st.tanks
            R.2.1) other) (apply_damage R.2.1 R.1.damage_to_tank1).1) id' := by
          apply dead_at_update_master _ hbase
          intro hid
          exfalso
          apply hdead
          apply h tank
          rw [show id' = id from
            ((hid.symm.trans (apply_damage_id _ _)).trans hrid).trans
              (find_tank_id hfind)]
          exact hfind
        split_ifs <;> repeat first
          | exact hbase
          | exact hdmg
          | split
          | dsimp only

/-- C10: every phase loop body of `process_physics_tick` skips dead tanks.
If the tank found under the examined id has `hp ≤ 0`, each of the five phase
steps is the identity (no rotation, no firing, no movement, no collision
resolution, no power-up pickup), and every phase step preserves per-id
deadness, so a tank whose HP falls to 0 or below at any point within a tick
stays dead and is skipped for the remainder of that tick (phase 4's
persistence assumes the world's tank ids are distinct). -/
theorem dead_tank_inert_all_phases (actions : List (String × ActionCommand))
    (terrains : List Terrain) (ms : ℤ × ℤ) (dt ct : ℝ) (st : TickState)
    (id : String) :
    (∀ tank, find_tank st.tanks id = some tank → tank.hp ≤ 0 →
      phase1_step actions dt st id = st ∧
      phase2_step actions ct st id = st ∧
      phase3_step actions terrains dt st id = st ∧
      phase4_step ms st id = st ∧
      phase5_step st id = st) ∧
    (∀ id', dead_at st.tanks id' →
      dead_at (phase1_step actions dt st id).tanks id' ∧
      dead_at (phase2_step actions ct st id).tanks id' ∧
      dead_at (phase3_step actions terrains dt st id).tanks id' ∧
      ((st.tanks.map Tank.id).Nodup →
        dead_at (phase4_step ms st id).tanks id') ∧
      dead_at (phase5_step st id).tanks id') := by
  constructor
  · intro tank hfind hdead
    refine ⟨?_, ?_, ?_, ?_, ?_⟩
    · unfold phase1_step
      simp only [hfind]
      rw [if_pos hdead]
    · unfold phase2_step
      simp only [hfind]
      rw [if_pos hdead]
    · unfold phase3_step
      simp only [hfind]
      rw [if_pos hdead]
    · unfold phase4_step
      simp only [hfind]
      rw [if_pos hdead]
    · unfold phase5_step
      simp only [hfind]
      rw [if_pos hdead]
  · intro id' h
    exact ⟨phase1_dead_at actions dt st id id' h,
      phase2_dead_at actions ct st id id' h,
      phase3_dead_at actions terrains dt st id id' h,
      fun hnd => phase4_dead_at ms st id id' hnd h,
      phase5_dead_at st id id' h⟩

/-- A dead copy of the sample tank, and a one-tank world holding it. -/
noncomputable def dead_sample : Tank :=
  { sample_tank with id := "D", hp := 0 }

noncomputable def dead_state : TickState :=
  TickState.mk [dead_sample] [] [] [] [] [] [] [] [] [] []

/-- C10 witness: in a concrete one-tank world whose only tank is dead,
phase 5 leaves the state unchanged and deadness of the id survives phases 1
and 4. -/
theorem dead_tank_inert_all_phases_witness :
    phase5_step dead_state "D" = dead_state ∧
    dead_at (phase1_step [] 1 dead_state "D").tanks "D" ∧
    dead_at (phase4_step (100, 100) dead_state "D").tanks "D" := by
  have hfind : find_tank dead_state.tanks "D" = some dead_sample := by
    simp [dead_state, dead_sample, find_tank, List.find?]
  have hdead : dead_sample.hp ≤ 0 := by norm_num [dead_sample]
  have hda : dead_at dead_state.tanks "D" := by
    intro t ht
    rw [hfind] at ht
    injection ht with ht
    rw [← ht]
    exact hdead
  have hnd : (dead_state.tanks.map Tank.id).Nodup := by
    simp [dead_state]
  have H := dead_tank_inert_all_phases [] [] (100, 100) 1 0 dead_state "D"
  exact ⟨(H.1 dead_sample hfind hdead).2.2.2.2,
    (H.2 "D" hda).1,
    (H.2 "D" hda).2.2.2.1 hnd⟩

end MSI
